import Mathlib

/-!
# Verification of the SurfaceNets UE voxel-terrain core

A shallow embedding of the repository's mesh-extraction and LOD code, with
theorems settling the specification claims.  Floating-point scalars are
modelled by `ℚ` (all arithmetic used by the code is field arithmetic, exact
on the rationals); `int32` is modelled by `ℤ`.  Host-engine primitives that
are external to the repository (`FVector::GetSafeNormal`, `FMath::Pow`) are
passed as explicit function parameters.

Embedded source units:
* `Part013` — the surface-nets extractor of `src/unnamed/part_013`
  (edge-intersection-centroid vertices, lattice-edge quadrangulation).
* `SNCpp` — the extractor in the first unit of
  `src/Source/SurfaceNetsUE/Private/SurfaceNets.cpp` (weighted-average
  vertices, negated-gradient normals).
* `Part016` / `Part018` — the chunk pipelines of `src/unnamed/part_016`
  and `src/unnamed/part_018`.
* `Part011` — the octree LOD component (third unit of
  `src/unnamed/part_011`).
* `FOctreeKey` — from `src/Source/SurfaceNetsUE/Public/OctreeComponent.h`.
-/

/-- 3D float vector (`FVector`), modelled over `ℚ`. -/
structure Vec3 where
  x : ℚ
  y : ℚ
  z : ℚ
deriving DecidableEq, Repr

/-- 2D float vector (`FVector2D`), modelled over `ℚ`. -/
structure Vec2 where
  x : ℚ
  y : ℚ
deriving DecidableEq, Repr

/-- 3D integer vector (`FIntVector`). -/
structure IVec3 where
  x : ℤ
  y : ℤ
  z : ℤ
deriving DecidableEq, Repr

instance : Add Vec3 := ⟨fun a b => ⟨a.x + b.x, a.y + b.y, a.z + b.z⟩⟩

instance : Sub Vec3 := ⟨fun a b => ⟨a.x - b.x, a.y - b.y, a.z - b.z⟩⟩

instance : Neg Vec3 := ⟨fun a => ⟨-a.x, -a.y, -a.z⟩⟩

/-- `FVector * float` (componentwise scale). -/
instance : HMul Vec3 ℚ Vec3 := ⟨fun v q => ⟨v.x * q, v.y * q, v.z * q⟩⟩

/-- `FVector / float`. -/
instance : HDiv Vec3 ℚ Vec3 := ⟨fun v q => ⟨v.x / q, v.y / q, v.z / q⟩⟩

/-- `FVector::ZeroVector`. -/
def Vec3.zero : Vec3 := ⟨0, 0, 0⟩

instance : Add IVec3 := ⟨fun a b => ⟨a.x + b.x, a.y + b.y, a.z + b.z⟩⟩

instance : Sub IVec3 := ⟨fun a b => ⟨a.x - b.x, a.y - b.y, a.z - b.z⟩⟩

/-- Conversion `FVector(FIntVector)`. -/
def IVec3.toVec3 (v : IVec3) : Vec3 := ⟨(v.x : ℚ), (v.y : ℚ), (v.z : ℚ)⟩

@[simp] theorem Vec3.add_def (a b : Vec3) :
    a + b = ⟨a.x + b.x, a.y + b.y, a.z + b.z⟩ := rfl

@[simp] theorem Vec3.sub_def (a b : Vec3) :
    a - b = ⟨a.x - b.x, a.y - b.y, a.z - b.z⟩ := rfl

@[simp] theorem Vec3.hmul_def (a : Vec3) (q : ℚ) :
    a * q = ⟨a.x * q, a.y * q, a.z * q⟩ := rfl

@[simp] theorem Vec3.hdiv_def (a : Vec3) (q : ℚ) :
    a / q = ⟨a.x / q, a.y / q, a.z / q⟩ := rfl

@[simp] theorem IVec3.addI_def (a b : IVec3) :
    a + b = ⟨a.x + b.x, a.y + b.y, a.z + b.z⟩ := rfl

@[simp] theorem IVec3.subI_def (a b : IVec3) :
    a - b = ⟨a.x - b.x, a.y - b.y, a.z - b.z⟩ := rfl

/-- `FMath::Clamp` for rationals: `Clamp(X, Min, Max)`. -/
def fclamp (v lo hi : ℚ) : ℚ :=
  if v < lo then lo else if v > hi then hi else v

/-- `FMath::Lerp(A, B, T) = A + T * (B - A)` on vectors. -/
def flerp (a b : Vec3) (t : ℚ) : Vec3 := a + (b - a) * t

/-!
## Octree keys — `src/Source/SurfaceNetsUE/Public/OctreeComponent.h`, lines 10–61

`FOctreeKey` holds a level and integer coordinates.  `GetParent` arithmetic-
shifts each coordinate right by one (floor division by two, as the compiler
implements `>>` on `int32`); `GetChildren` shifts left (multiplies by two)
and adds the eight offset bit patterns.
-/

/-- `FOctreeKey`: level plus integer coordinates at that level. -/
structure FOctreeKey where
  Level : ℤ
  Coordinates : IVec3
deriving DecidableEq, Repr

/-- Arithmetic shift right by one on `int32`: floor division by two
(Lean's `/` on `ℤ` divides by a positive divisor with floor rounding). -/
def sar1 (c : ℤ) : ℤ := c / 2

/-- `FOctreeKey::GetParent`: `(Level + 1, Coordinates >> 1)`. -/
def FOctreeKey.GetParent (k : FOctreeKey) : FOctreeKey :=
  ⟨k.Level + 1, ⟨sar1 k.Coordinates.x, sar1 k.Coordinates.y, sar1 k.Coordinates.z⟩⟩

/-- `FOctreeKey::GetChildren`: for `i = 0..7`, child coordinates are
`(Coordinates << 1) + ((i&1)?1:0, (i&2)?1:0, (i&4)?1:0)` at `Level - 1`. -/
def FOctreeKey.GetChildren (k : FOctreeKey) : List FOctreeKey :=
  (List.range 8).map (fun i =>
    ⟨k.Level - 1,
     ⟨2 * k.Coordinates.x + (if i % 2 = 1 then 1 else 0),
      2 * k.Coordinates.y + (if i / 2 % 2 = 1 then 1 else 0),
      2 * k.Coordinates.z + (if i / 4 % 2 = 1 then 1 else 0)⟩⟩)

/-- **C10.** For every octree key, `key.GetParent().GetChildren()` contains the
key itself; and for every key with `Level > 0`, each of the eight keys
returned by `GetChildren()` has `GetParent()` equal to the original key —
including keys with negative coordinates. -/
theorem C10_octree_key_round_trip (k : FOctreeKey) :
    k ∈ k.GetParent.GetChildren ∧
      (0 < k.Level → ∀ c ∈ k.GetChildren, c.GetParent = k) := by
  obtain ⟨L, x, y, z⟩ := k
  constructor
  · simp only [FOctreeKey.GetParent, FOctreeKey.GetChildren, sar1, List.mem_map,
      List.mem_range]
    refine ⟨(x % 2 + 2 * (y % 2) + 4 * (z % 2)).toNat, by omega, ?_⟩
    simp only [FOctreeKey.mk.injEq, IVec3.mk.injEq]
    split_ifs <;> omega
  · intro _ c hc
    simp only [FOctreeKey.GetChildren, List.mem_map, List.mem_range] at hc
    obtain ⟨i, -, rfl⟩ := hc
    simp only [FOctreeKey.GetParent, sar1, FOctreeKey.mk.injEq, IVec3.mk.injEq]
    split_ifs <;> omega

/-- Witness for C10 at the concrete key `(2, (-3, 5, 0))` and its child
`(1, (-5, 10, 0))`. -/
theorem C10_octree_key_round_trip_witness :
    (⟨2, ⟨-3, 5, 0⟩⟩ : FOctreeKey) ∈
        (FOctreeKey.GetParent ⟨2, ⟨-3, 5, 0⟩⟩).GetChildren ∧
      FOctreeKey.GetParent ⟨1, ⟨-5, 10, 0⟩⟩ = (⟨2, ⟨-3, 5, 0⟩⟩ : FOctreeKey) :=
  ⟨(C10_octree_key_round_trip ⟨2, ⟨-3, 5, 0⟩⟩).1,
   (C10_octree_key_round_trip ⟨2, ⟨-3, 5, 0⟩⟩).2 (by norm_num)
     ⟨1, ⟨-5, 10, 0⟩⟩ (by decide)⟩

/-!
## Surface-nets extractor — `src/unnamed/part_013`

The variant implementing the header in `src/unnamed/part_005` (also declared
by `src/unnamed/part_006`): Phase A places one vertex per surface-crossing
cell at the centroid of its edge intersections; Phase B quadrangulates
lattice edges.  `TArray<float>` density fields are `List ℚ` in the linear
layout `index = x + y*g + z*g*g`; the `VertexGrid` array (cell → vertex
index, `-1` when absent) is rendered functionally: Phase A appends vertices
in loop order, so the grid entry for a surface cell is its position in the
surface-cell list.
-/

namespace Part013

/-- `FSurfaceNets::CubeCorners` (part_013 lines 5–8). -/
def CubeCorners : List IVec3 :=
  [⟨0, 0, 0⟩, ⟨1, 0, 0⟩, ⟨0, 1, 0⟩, ⟨1, 1, 0⟩,
   ⟨0, 0, 1⟩, ⟨1, 0, 1⟩, ⟨0, 1, 1⟩, ⟨1, 1, 1⟩]

/-- `FSurfaceNets::CubeCornerVectors` (part_013 lines 10–13). -/
def CubeCornerVectors : List Vec3 :=
  [⟨0, 0, 0⟩, ⟨1, 0, 0⟩, ⟨0, 1, 0⟩, ⟨1, 1, 0⟩,
   ⟨0, 0, 1⟩, ⟨1, 0, 1⟩, ⟨0, 1, 1⟩, ⟨1, 1, 1⟩]

/-- `FSurfaceNets::CubeEdges` (part_013 lines 15–17). -/
def CubeEdges : List (ℕ × ℕ) :=
  [(0, 1), (0, 2), (0, 4), (1, 3), (1, 5), (2, 3),
   (2, 6), (3, 7), (4, 5), (4, 6), (5, 7), (6, 7)]

/-- `FSurfaceNets::GetDensity` (part_013 lines 294–303): out-of-range lattice
queries return the exterior sentinel `+1.0`. -/
def GetDensity (field : List ℚ) (g x y z : ℤ) : ℚ :=
  if x < 0 ∨ g ≤ x ∨ y < 0 ∨ g ≤ y ∨ z < 0 ∨ g ≤ z then 1
  else ((field.get? (x + y * g + z * g * g).toNat).getD 1)

/-- The eight corner densities of the cell at `(x, y, z)`
(the `CornerDists` array of `CalculateVertexPosition`, part_013 lines 213–225,
also sampled by `ContainsSurface`). -/
def cornerDists (field : List ℚ) (g x y z : ℤ) : List ℚ :=
  CubeCorners.map (fun k => GetDensity field g (x + k.x) (y + k.y) (z + k.z))

/-- `FSurfaceNets::ContainsSurface` (part_013 lines 305–332): true when the
corner densities include a negative one (`< 0`) and a non-negative one. -/
def ContainsSurface (field : List ℚ) (g x y z : ℤ) : Bool :=
  let ds := cornerDists field g x y z
  (ds.any fun d => decide (d < 0)) && (ds.any fun d => decide (0 ≤ d))

/-- `FSurfaceNets::EstimateSurfaceEdgeIntersection` (part_013 lines 270–277):
`T = clamp(-Value1 / (Value2 - Value1), 0, 1)`, lerped between the two
corner vectors. -/
def EstimateSurfaceEdgeIntersection (c1 c2 : ℕ) (v1 v2 : ℚ) : Vec3 :=
  let T := fclamp (-v1 / (v2 - v1)) 0 1
  flerp (CubeCornerVectors.getD c1 Vec3.zero) (CubeCornerVectors.getD c2 Vec3.zero) T

/-- The edges of the cube whose endpoint densities straddle zero
(the loop filter of `CalculateCentroidOfEdgeIntersections`,
part_013 lines 245–259). -/
def crossingEdges (ds : List ℚ) : List (ℕ × ℕ) :=
  CubeEdges.filter (fun e => decide (¬ ((ds.getD e.1 0 < 0) ↔ (ds.getD e.2 0 < 0))))

/-- `FSurfaceNets::CalculateCentroidOfEdgeIntersections` (part_013
lines 239–268): average of the edge-intersection points, or the cube center
`(0.5, 0.5, 0.5)` when no edge crosses. -/
def CalculateCentroidOfEdgeIntersections (ds : List ℚ) : Vec3 :=
  let pts := (crossingEdges ds).map
    (fun e => EstimateSurfaceEdgeIntersection e.1 e.2 (ds.getD e.1 0) (ds.getD e.2 0))
  if pts.length = 0 then ⟨1/2, 1/2, 1/2⟩
  else (pts.foldl (· + ·) Vec3.zero) / (pts.length : ℚ)

/-- `FSurfaceNets::CalculateVertexPosition` (part_013 lines 205–237). -/
def CalculateVertexPosition (field : List ℚ) (g x y z : ℤ) (voxelSize : ℚ)
    (origin : Vec3) : Vec3 :=
  let ds := cornerDists field g x y z
  let numNegative := (ds.filter fun d => decide (d < 0)).length
  if numNegative = 0 ∨ numNegative = 8 then
    origin + (⟨(x : ℚ) + 1/2, (y : ℚ) + 1/2, (z : ℚ) + 1/2⟩ : Vec3) * voxelSize
  else
    origin + ((⟨x, y, z⟩ : IVec3).toVec3 + CalculateCentroidOfEdgeIntersections ds) * voxelSize

/-- `FSurfaceNets::CalculateGradient` (part_013 lines 279–292): forward/backward
central differences; NOT negated in this variant. -/
def CalculateGradient (field : List ℚ) (g x y z : ℤ) : Vec3 :=
  ⟨GetDensity field g (x + 1) y z - GetDensity field g (x - 1) y z,
   GetDensity field g x (y + 1) z - GetDensity field g x (y - 1) z,
   GetDensity field g x y (z + 1) - GetDensity field g x y (z - 1)⟩

/-- The cell lattice `[0, g-1)³` in Phase A loop order (`z` outermost, `x`
innermost; part_013 lines 42–46). -/
def gridCells (g : ℤ) : List IVec3 :=
  (List.range (g - 1).toNat).flatMap (fun z : ℕ =>
    (List.range (g - 1).toNat).flatMap (fun y : ℕ =>
      (List.range (g - 1).toNat).map (fun x : ℕ =>
        { x := (x : ℤ), y := (y : ℤ), z := (z : ℤ) })))

/-- The cells for which Phase A emits a vertex, in emission order
(part_013 lines 42–66). -/
def surfaceCells (field : List ℚ) (g : ℤ) : List IVec3 :=
  (gridCells g).filter (fun c => ContainsSurface field g c.x c.y c.z)

/-- `FSurfaceNets::GetVertexIndex` (part_013 lines 334–343): `-1` outside the
grid or for a cell without a vertex, else the vertex index — which is the
cell's position in the emission-ordered surface-cell list. -/
def GetVertexIndex (cells : List IVec3) (g x y z : ℤ) : ℤ :=
  if x < 0 ∨ g ≤ x ∨ y < 0 ∨ g ≤ y ∨ z < 0 ∨ g ≤ z then -1
  else if (⟨x, y, z⟩ : IVec3) ∈ cells then (cells.indexOf (⟨x, y, z⟩ : IVec3) : ℤ)
  else -1

/-- `FSurfaceNets::MaybeCreateQuad` (part_013 lines 137–203): compares the
densities at the two lattice points `P1`, `P2`; emits two triangles over the
four cell-vertices `P1`, `P1-AxisB`, `P1-AxisC`, `P1-AxisB-AxisC` when all
exist, with winding chosen by which side is negative. -/
def MaybeCreateQuad (field : List ℚ) (g : ℤ) (cells : List IVec3)
    (P1 P2 AxisB AxisC : IVec3) : List ℤ :=
  let D1 := GetDensity field g P1.x P1.y P1.z
  let D2 := GetDensity field g P2.x P2.y P2.z
  let V1 := GetVertexIndex cells g P1.x P1.y P1.z
  let V2 := GetVertexIndex cells g (P1.x - AxisB.x) (P1.y - AxisB.y) (P1.z - AxisB.z)
  let V3 := GetVertexIndex cells g (P1.x - AxisC.x) (P1.y - AxisC.y) (P1.z - AxisC.z)
  let V4 := GetVertexIndex cells g (P1.x - AxisB.x - AxisC.x)
    (P1.y - AxisB.y - AxisC.y) (P1.z - AxisB.z - AxisC.z)
  if D1 < 0 ∧ 0 ≤ D2 then
    if V1 = -1 ∨ V2 = -1 ∨ V3 = -1 ∨ V4 = -1 then []
    else [V1, V4, V2, V1, V3, V4]
  else if 0 ≤ D1 ∧ D2 < 0 then
    if V1 = -1 ∨ V2 = -1 ∨ V3 = -1 ∨ V4 = -1 then []
    else [V1, V2, V4, V1, V4, V3]
  else []

/-- The X/Y/Z strides of `MakeAllQuads` (part_013 lines 80–84). -/
def strideX : IVec3 := ⟨1, 0, 0⟩

/-- Y stride. -/
def strideY : IVec3 := ⟨0, 1, 0⟩

/-- Z stride. -/
def strideZ : IVec3 := ⟨0, 0, 1⟩

/-- The triangle indices contributed by one surface cell in `MakeAllQuads`
(part_013 lines 86–134): one guarded `MaybeCreateQuad` per principal axis. -/
def cellQuads (field : List ℚ) (g : ℤ) (cells : List IVec3) (c : IVec3) : List ℤ :=
  (if 0 < c.y ∧ 0 < c.z ∧ c.x < g - 2 then
      MaybeCreateQuad field g cells c (c + strideX) strideY strideZ
    else []) ++
  (if 0 < c.x ∧ 0 < c.z ∧ c.y < g - 2 then
      MaybeCreateQuad field g cells c (c + strideY) strideZ strideX
    else []) ++
  (if 0 < c.x ∧ 0 < c.y ∧ c.z < g - 2 then
      MaybeCreateQuad field g cells c (c + strideZ) strideX strideY
    else [])

/-- `FSurfaceNets::MakeAllQuads` (part_013 lines 72–135). -/
def MakeAllQuads (field : List ℚ) (g : ℤ) (cells : List IVec3) : List ℤ :=
  cells.flatMap (cellQuads field g cells)

/-- `FSurfaceNets::GenerateMesh` (part_013 lines 19–70); `gsn` models the
host-engine `FVector::GetSafeNormal`.  Returns (vertices, triangles, normals). -/
def GenerateMesh (field : List ℚ) (g : ℤ) (voxelSize : ℚ) (origin : Vec3)
    (gsn : Vec3 → Vec3) : List Vec3 × List ℤ × List Vec3 :=
  if g < 2 then ([], [], [])
  else
    let cells := surfaceCells field g
    (cells.map (fun c => CalculateVertexPosition field g c.x c.y c.z voxelSize origin),
     MakeAllQuads field g cells,
     cells.map (fun c => gsn (CalculateGradient field g c.x c.y c.z)))

end Part013

namespace Part013

theorem mem_gridCells {g : ℤ} {c : IVec3} :
    c ∈ gridCells g ↔
      0 ≤ c.x ∧ c.x < g - 1 ∧ 0 ≤ c.y ∧ c.y < g - 1 ∧ 0 ≤ c.z ∧ c.z < g - 1 := by
  constructor
  · intro hm
    simp only [gridCells, List.mem_flatMap, List.mem_map, List.mem_range] at hm
    obtain ⟨z, hz, y, hy, x, hx, rfl⟩ := hm
    dsimp only
    omega
  · intro h
    obtain ⟨cx, cy, cz⟩ := c
    dsimp only at h
    simp only [gridCells, List.mem_flatMap, List.mem_map, List.mem_range]
    refine ⟨cz.toNat, by omega, cy.toNat, by omega, cx.toNat, by omega, ?_⟩
    simp only [IVec3.mk.injEq]
    omega

theorem nodup_gridCells (g : ℤ) : (gridCells g).Nodup := by
  unfold gridCells
  rw [List.nodup_flatMap]
  refine ⟨fun z _ => ?_, ?_⟩
  · rw [List.nodup_flatMap]
    refine ⟨fun y _ => ?_, ?_⟩
    · refine (List.nodup_range _).map ?_
      intro a b hab
      injection hab with h1 h2 h3
      omega
    · refine (List.pairwise_lt_range _).imp ?_
      intro a b hab v hv1 hv2
      simp only [List.mem_map, List.mem_range] at hv1 hv2
      obtain ⟨x1, -, rfl⟩ := hv1
      obtain ⟨x2, -, h⟩ := hv2
      injection h with h1 h2 h3
      omega
  · refine (List.pairwise_lt_range _).imp ?_
    intro a b hab v hv1 hv2
    simp only [List.mem_flatMap, List.mem_map, List.mem_range] at hv1 hv2
    obtain ⟨y1, -, x1, -, rfl⟩ := hv1
    obtain ⟨y2, -, x2, -, h⟩ := hv2
    injection h with h1 h2 h3
    omega

theorem mem_surfaceCells {field : List ℚ} {g : ℤ} {c : IVec3} :
    c ∈ surfaceCells field g ↔
      (0 ≤ c.x ∧ c.x < g - 1 ∧ 0 ≤ c.y ∧ c.y < g - 1 ∧ 0 ≤ c.z ∧ c.z < g - 1) ∧
        ContainsSurface field g c.x c.y c.z = true := by
  simp only [surfaceCells, List.mem_filter, mem_gridCells]

theorem nodup_surfaceCells (field : List ℚ) (g : ℤ) :
    (surfaceCells field g).Nodup :=
  (nodup_gridCells g).filter _

theorem count_surfaceCells (field : List ℚ) (g : ℤ) (c : IVec3) :
    (surfaceCells field g).count c =
      if (0 ≤ c.x ∧ c.x < g - 1 ∧ 0 ≤ c.y ∧ c.y < g - 1 ∧ 0 ≤ c.z ∧ c.z < g - 1) ∧
          ContainsSurface field g c.x c.y c.z = true
        then 1 else 0 := by
  by_cases h : c ∈ surfaceCells field g
  · rw [if_pos (mem_surfaceCells.mp h)]
    exact List.count_eq_one_of_mem (nodup_surfaceCells field g) h
  · rw [if_neg (fun hc => h (mem_surfaceCells.mpr hc))]
    exact List.count_eq_zero_of_not_mem h

end Part013

/-!
## Claim C2 — Phase A vertex estimation

Spec-side renderings of the claim's formulas, compared against the
`Part013` implementation.
-/

/-- Claim C2's edge-crossing test: the two corner densities have opposite
sign (negative interior vs non-negative exterior). -/
def specEdgeCrosses (d0 d1 : ℚ) : Prop :=
  (d0 < 0 ∧ 0 ≤ d1) ∨ (0 ≤ d0 ∧ d1 < 0)

instance (d0 d1 : ℚ) : Decidable (specEdgeCrosses d0 d1) := by
  unfold specEdgeCrosses
  infer_instance

/-- Claim C2's zero-crossing point on an edge: interpolation parameter
`t = d0 / (d0 - d1)` clamped to `[0, 1]`. -/
def specCrossingPoint (e : ℕ × ℕ) (ds : List ℚ) : Vec3 :=
  flerp (Part013.CubeCornerVectors.getD e.1 Vec3.zero)
    (Part013.CubeCornerVectors.getD e.2 Vec3.zero)
    (fclamp (ds.getD e.1 0 / (ds.getD e.1 0 - ds.getD e.2 0)) 0 1)

/-- Claim C2's vertex offset: the centroid of the crossing points of all
opposite-sign edges, or the cell center `(0.5, 0.5, 0.5)` when no edge
crosses. -/
def specVertexOffset (ds : List ℚ) : Vec3 :=
  let pts := (Part013.CubeEdges.filter fun e =>
      decide (specEdgeCrosses (ds.getD e.1 0) (ds.getD e.2 0))).map
    (fun e => specCrossingPoint e ds)
  if pts.length = 0 then ⟨1/2, 1/2, 1/2⟩
  else (pts.foldl (· + ·) Vec3.zero) / (pts.length : ℚ)

namespace Part013

theorem containsSurface_iff {field : List ℚ} {g x y z : ℤ} :
    ContainsSurface field g x y z = true ↔
      (∃ d ∈ cornerDists field g x y z, d < 0) ∧
        (∃ d ∈ cornerDists field g x y z, 0 ≤ d) := by
  simp [ContainsSurface]

/-- The implementation's interpolation parameter agrees with the claim's:
`-v0 / (v1 - v0) = v0 / (v0 - v1)`. -/
theorem estimate_eq_specCrossingPoint (e : ℕ × ℕ) (ds : List ℚ) :
    EstimateSurfaceEdgeIntersection e.1 e.2 (ds.getD e.1 0) (ds.getD e.2 0) =
      specCrossingPoint e ds := by
  unfold EstimateSurfaceEdgeIntersection specCrossingPoint
  have : -(ds.getD e.1 0) / (ds.getD e.2 0 - ds.getD e.1 0) =
      ds.getD e.1 0 / (ds.getD e.1 0 - ds.getD e.2 0) := by
    rw [show ds.getD e.1 0 - ds.getD e.2 0 = -(ds.getD e.2 0 - ds.getD e.1 0) by ring,
      div_neg, neg_div]
  rw [this]

/-- The implementation's crossing filter agrees with the claim's. -/
theorem crossingEdges_eq_spec (ds : List ℚ) :
    crossingEdges ds = Part013.CubeEdges.filter fun e =>
      decide (specEdgeCrosses (ds.getD e.1 0) (ds.getD e.2 0)) := by
  unfold crossingEdges
  refine List.filter_congr ?_
  intro e _
  simp only [decide_eq_decide]
  unfold specEdgeCrosses
  constructor
  · intro h
    by_cases h1 : ds.getD e.1 0 < 0 <;> by_cases h2 : ds.getD e.2 0 < 0
    · exact absurd (iff_of_true h1 h2) h
    · exact Or.inl ⟨h1, not_lt.mp h2⟩
    · exact Or.inr ⟨not_lt.mp h1, h2⟩
    · exact absurd (iff_of_false h1 h2) h
  · rintro (⟨h1, h2⟩ | ⟨h1, h2⟩) hiff
    · exact absurd (hiff.mp h1) (not_lt.mpr h2)
    · exact absurd (hiff.mpr h2) (not_lt.mpr h1)

/-- `CalculateCentroidOfEdgeIntersections` computes exactly the claim's
vertex offset. -/
theorem centroid_eq_specVertexOffset (ds : List ℚ) :
    CalculateCentroidOfEdgeIntersections ds = specVertexOffset ds := by
  unfold CalculateCentroidOfEdgeIntersections specVertexOffset
  rw [crossingEdges_eq_spec]
  rw [List.map_congr_left (fun e _ => estimate_eq_specCrossingPoint e ds)]

end Part013

theorem fclamp_bounds (v : ℚ) : 0 ≤ fclamp v 0 1 ∧ fclamp v 0 1 ≤ 1 := by
  unfold fclamp
  split_ifs with h1 h2
  · norm_num
  · norm_num
  · exact ⟨not_lt.mp h1, not_lt.mp h2⟩

theorem getD_map_of_lt {α β : Type} (f : α → β) (l : List α) {i : ℕ}
    (hi : i < l.length) (d : β) (d0 : α) :
    (l.map f).getD i d = f (l.getD i d0) := by
  rw [List.getD_eq_getElem?_getD, List.getElem?_map, List.getD_eq_getElem?_getD,
    List.getElem?_eq_getElem hi]
  rfl

namespace Part013

theorem length_cornerDists (field : List ℚ) (g x y z : ℤ) :
    (cornerDists field g x y z).length = 8 := rfl

/-- On a surface-containing cell, `CalculateVertexPosition` returns
`origin + (cell + specVertexOffset) * voxelSize`. -/
theorem vertexPosition_of_containsSurface {field : List ℚ} {g : ℤ} {c : IVec3}
    (h : ContainsSurface field g c.x c.y c.z = true) (voxelSize : ℚ) (origin : Vec3) :
    CalculateVertexPosition field g c.x c.y c.z voxelSize origin =
      origin + (c.toVec3 + specVertexOffset (cornerDists field g c.x c.y c.z)) * voxelSize := by
  obtain ⟨hneg, hpos⟩ := containsSurface_iff.mp h
  unfold CalculateVertexPosition
  rw [if_neg, centroid_eq_specVertexOffset]
  push_neg
  constructor
  · obtain ⟨d, hd, hdlt⟩ := hneg
    have hmem : d ∈ (cornerDists field g c.x c.y c.z).filter (fun d => decide (d < 0)) :=
      List.mem_filter.mpr ⟨hd, by simpa⟩
    have := List.length_pos_of_mem hmem
    omega
  · intro h8
    have hsub : List.Sublist ((cornerDists field g c.x c.y c.z).filter
        (fun d => decide (d < 0))) (cornerDists field g c.x c.y c.z) :=
      List.filter_sublist _
    have heq := hsub.eq_of_length (by rw [h8, length_cornerDists])
    obtain ⟨d, hd, hdle⟩ := hpos
    rw [← heq] at hd
    have := (List.mem_filter.mp hd).2
    simp only [decide_eq_true_eq] at this
    exact absurd this (not_lt.mpr hdle)

/-- An interpolation between unit-cube points with parameter in `[0,1]` stays
in the unit cube. -/
theorem flerp_unit {a b : Vec3} {t : ℚ} (ht0 : 0 ≤ t) (ht1 : t ≤ 1)
    (ha : 0 ≤ a.x ∧ a.x ≤ 1 ∧ 0 ≤ a.y ∧ a.y ≤ 1 ∧ 0 ≤ a.z ∧ a.z ≤ 1)
    (hb : 0 ≤ b.x ∧ b.x ≤ 1 ∧ 0 ≤ b.y ∧ b.y ≤ 1 ∧ 0 ≤ b.z ∧ b.z ≤ 1) :
    0 ≤ (flerp a b t).x ∧ (flerp a b t).x ≤ 1 ∧
      0 ≤ (flerp a b t).y ∧ (flerp a b t).y ≤ 1 ∧
      0 ≤ (flerp a b t).z ∧ (flerp a b t).z ≤ 1 := by
  obtain ⟨hax0, hax1, hay0, hay1, haz0, haz1⟩ := ha
  obtain ⟨hbx0, hbx1, hby0, hby1, hbz0, hbz1⟩ := hb
  simp only [flerp, Vec3.add_def, Vec3.sub_def, Vec3.hmul_def]
  refine ⟨?_, ?_, ?_, ?_, ?_, ?_⟩ <;> dsimp only <;> nlinarith

/-- The corner-vector table only holds unit-cube points (the out-of-range
default `Vec3.zero` included). -/
theorem cornerVectors_getD_bounds (i : ℕ) :
    0 ≤ (CubeCornerVectors.getD i Vec3.zero).x ∧
      (CubeCornerVectors.getD i Vec3.zero).x ≤ 1 ∧
      0 ≤ (CubeCornerVectors.getD i Vec3.zero).y ∧
      (CubeCornerVectors.getD i Vec3.zero).y ≤ 1 ∧
      0 ≤ (CubeCornerVectors.getD i Vec3.zero).z ∧
      (CubeCornerVectors.getD i Vec3.zero).z ≤ 1 := by
  match i with
  | 0 | 1 | 2 | 3 | 4 | 5 | 6 | 7 =>
    simp only [CubeCornerVectors, List.getD_cons_zero, List.getD_cons_succ]
    norm_num
  | n + 8 =>
    rw [List.getD_eq_default]
    · simp only [Vec3.zero]
      norm_num
    · simp only [CubeCornerVectors, List.length_cons, List.length_nil]
      omega

/-- Each crossing point lies in the unit cube. -/
theorem specCrossingPoint_bounds (e : ℕ × ℕ) (ds : List ℚ) :
    0 ≤ (specCrossingPoint e ds).x ∧ (specCrossingPoint e ds).x ≤ 1 ∧
      0 ≤ (specCrossingPoint e ds).y ∧ (specCrossingPoint e ds).y ≤ 1 ∧
      0 ≤ (specCrossingPoint e ds).z ∧ (specCrossingPoint e ds).z ≤ 1 := by
  unfold specCrossingPoint
  exact flerp_unit (fclamp_bounds _).1 (fclamp_bounds _).2
    (cornerVectors_getD_bounds e.1) (cornerVectors_getD_bounds e.2)

theorem foldl_vec_add (l : List Vec3) (acc : Vec3) :
    l.foldl (· + ·) acc =
      ⟨acc.x + (l.map Vec3.x).sum, acc.y + (l.map Vec3.y).sum,
        acc.z + (l.map Vec3.z).sum⟩ := by
  induction l generalizing acc with
  | nil => cases acc; simp
  | cons p rest ih =>
    rw [List.foldl_cons, ih]
    simp only [List.map_cons, List.sum_cons, Vec3.add_def, Vec3.mk.injEq]
    refine ⟨by ring, by ring, by ring⟩

/-- The claim's vertex offset always lies in the unit cube `[0,1]³`. -/
theorem specVertexOffset_bounds (ds : List ℚ) :
    0 ≤ (specVertexOffset ds).x ∧ (specVertexOffset ds).x ≤ 1 ∧
      0 ≤ (specVertexOffset ds).y ∧ (specVertexOffset ds).y ≤ 1 ∧
      0 ≤ (specVertexOffset ds).z ∧ (specVertexOffset ds).z ≤ 1 := by
  unfold specVertexOffset
  set pts := (CubeEdges.filter fun e =>
      decide (specEdgeCrosses (ds.getD e.1 0) (ds.getD e.2 0))).map
    (fun e => specCrossingPoint e ds) with hpts
  by_cases h : pts.length = 0
  · rw [if_pos h]
    norm_num
  · rw [if_neg h]
    have hall : ∀ p ∈ pts, 0 ≤ p.x ∧ p.x ≤ 1 ∧ 0 ≤ p.y ∧ p.y ≤ 1 ∧ 0 ≤ p.z ∧ p.z ≤ 1 := by
      intro p hp
      rw [hpts] at hp
      obtain ⟨e, he, rfl⟩ := List.mem_map.mp hp
      exact specCrossingPoint_bounds e ds
    have hlen : (0 : ℚ) < (pts.length : ℚ) := by
      exact_mod_cast Nat.pos_of_ne_zero h
    rw [foldl_vec_add]
    have sums : ∀ f : Vec3 → ℚ, (∀ p ∈ pts, 0 ≤ f p ∧ f p ≤ 1) →
        0 ≤ (pts.map f).sum ∧ (pts.map f).sum ≤ (pts.length : ℚ) := by
      intro f hf
      constructor
      · have := List.card_nsmul_le_sum (pts.map f) 0
          (by intro q hq; obtain ⟨p, hp, rfl⟩ := List.mem_map.mp hq; exact (hf p hp).1)
        simpa using this
      · have := List.sum_le_card_nsmul (pts.map f) 1
          (by intro q hq; obtain ⟨p, hp, rfl⟩ := List.mem_map.mp hq; exact (hf p hp).2)
        simpa [nsmul_eq_mul] using this
    have hx := sums Vec3.x (fun p hp => ⟨(hall p hp).1, (hall p hp).2.1⟩)
    have hy := sums Vec3.y (fun p hp => ⟨(hall p hp).2.2.1, (hall p hp).2.2.2.1⟩)
    have hz := sums Vec3.z (fun p hp => ⟨(hall p hp).2.2.2.2.1, (hall p hp).2.2.2.2.2⟩)
    simp only [Vec3.hdiv_def, Vec3.zero]
    refine ⟨?_, ?_, ?_, ?_, ?_, ?_⟩ <;> dsimp only
    · exact div_nonneg (by linarith [hx.1]) (le_of_lt hlen)
    · rw [div_le_one hlen]; linarith [hx.2]
    · exact div_nonneg (by linarith [hy.1]) (le_of_lt hlen)
    · rw [div_le_one hlen]; linarith [hy.2]
    · exact div_nonneg (by linarith [hz.1]) (le_of_lt hlen)
    · rw [div_le_one hlen]; linarith [hz.2]

end Part013

/-- The cell at position `i` of the Phase A emission order (claim C2 helper). -/
def cellAt (field : List ℚ) (g : ℤ) (i : ℕ) : IVec3 :=
  (Part013.surfaceCells field g).getD i ⟨0, 0, 0⟩

/-- The claim's vertex offset for the cell at emission position `i`. -/
def specOffsetAt (field : List ℚ) (g : ℤ) (i : ℕ) : Vec3 :=
  specVertexOffset (Part013.cornerDists field g
    (cellAt field g i).x (cellAt field g i).y (cellAt field g i).z)

/-- **C2.** Phase A emits exactly one vertex for each in-bounds lattice cell
whose 8 corner densities do not all share the same sign, and none for any
other cell; the vertex's local offset lies in `[0,1]³` and equals the
centroid of the clamped zero-crossings `t = d0/(d0-d1)` over the
opposite-sign edges (cell center when no edge crosses), and the vertex's
world position is `origin + (cellIndex + offset) * voxelSize`. -/
theorem C2_phase_a_vertex_estimation (field : List ℚ) (g : ℤ) (voxelSize : ℚ)
    (origin : Vec3) (gsn : Vec3 → Vec3) (hg : 2 ≤ g) :
    ((Part013.GenerateMesh field g voxelSize origin gsn).1.length =
        (Part013.surfaceCells field g).length) ∧
      (∀ c : IVec3,
        (Part013.surfaceCells field g).count c =
          if (0 ≤ c.x ∧ c.x < g - 1 ∧ 0 ≤ c.y ∧ c.y < g - 1 ∧
                0 ≤ c.z ∧ c.z < g - 1) ∧
              (∃ d ∈ Part013.cornerDists field g c.x c.y c.z, d < 0) ∧
              (∃ d ∈ Part013.cornerDists field g c.x c.y c.z, 0 ≤ d)
            then 1 else 0) ∧
      (∀ i : ℕ, i < (Part013.surfaceCells field g).length →
        (Part013.GenerateMesh field g voxelSize origin gsn).1.getD i Vec3.zero =
            origin + ((cellAt field g i).toVec3 + specOffsetAt field g i) * voxelSize ∧
          0 ≤ (specOffsetAt field g i).x ∧ (specOffsetAt field g i).x ≤ 1 ∧
          0 ≤ (specOffsetAt field g i).y ∧ (specOffsetAt field g i).y ≤ 1 ∧
          0 ≤ (specOffsetAt field g i).z ∧ (specOffsetAt field g i).z ≤ 1) := by
  have hverts : (Part013.GenerateMesh field g voxelSize origin gsn).1 =
      (Part013.surfaceCells field g).map
        (fun c => Part013.CalculateVertexPosition field g c.x c.y c.z voxelSize origin) := by
    unfold Part013.GenerateMesh
    rw [if_neg (by omega)]
  refine ⟨by rw [hverts, List.length_map], ?_, ?_⟩
  · intro c
    rw [Part013.count_surfaceCells]
    by_cases hc :
        (0 ≤ c.x ∧ c.x < g - 1 ∧ 0 ≤ c.y ∧ c.y < g - 1 ∧ 0 ≤ c.z ∧ c.z < g - 1) ∧
          (∃ d ∈ Part013.cornerDists field g c.x c.y c.z, d < 0) ∧
          (∃ d ∈ Part013.cornerDists field g c.x c.y c.z, 0 ≤ d)
    · rw [if_pos ⟨hc.1, Part013.containsSurface_iff.mpr hc.2⟩, if_pos hc]
    · rw [if_neg (fun hcc => hc ⟨hcc.1, Part013.containsSurface_iff.mp hcc.2⟩),
        if_neg hc]
  · intro i hi
    have hmem : cellAt field g i ∈ Part013.surfaceCells field g := by
      unfold cellAt
      rw [List.getD_eq_getElem?_getD, List.getElem?_eq_getElem hi]
      exact List.getElem_mem _
    have hcs := (Part013.mem_surfaceCells.mp hmem).2
    constructor
    · rw [hverts, getD_map_of_lt _ _ hi Vec3.zero ⟨0, 0, 0⟩]
      have hvp := Part013.vertexPosition_of_containsSurface hcs voxelSize origin
      unfold specOffsetAt
      unfold cellAt at hvp ⊢
      exact hvp
    · unfold specOffsetAt
      exact Part013.specVertexOffset_bounds _

/-- Witness for C2 on the 2³ density field `[-1, 1, 1, 1, 1, 1, 1, 1]`
(one surface cell). -/
theorem C2_phase_a_vertex_estimation_witness :
    (2 : ℤ) ≤ 2 ∧
      ((Part013.GenerateMesh [-1, 1, 1, 1, 1, 1, 1, 1] 2 1 ⟨0, 0, 0⟩
          (fun v => v)).1.length =
        (Part013.surfaceCells [-1, 1, 1, 1, 1, 1, 1, 1] 2).length) ∧
      ((Part013.GenerateMesh [-1, 1, 1, 1, 1, 1, 1, 1] 2 1 ⟨0, 0, 0⟩
          (fun v => v)).1.getD 0 Vec3.zero =
        (⟨0, 0, 0⟩ : Vec3) +
          ((cellAt [-1, 1, 1, 1, 1, 1, 1, 1] 2 0).toVec3 +
            specOffsetAt [-1, 1, 1, 1, 1, 1, 1, 1] 2 0) * (1 : ℚ)) := by
  have hthm := C2_phase_a_vertex_estimation [-1, 1, 1, 1, 1, 1, 1, 1] 2 1 ⟨0, 0, 0⟩
    (fun v => v) (by norm_num)
  have hmem : (⟨0, 0, 0⟩ : IVec3) ∈ Part013.surfaceCells [-1, 1, 1, 1, 1, 1, 1, 1] 2 := by
    refine Part013.mem_surfaceCells.mpr ⟨by norm_num, ?_⟩
    simp only [Part013.ContainsSurface, Part013.cornerDists, Part013.CubeCorners,
      Part013.GetDensity]
    norm_num
  have hlen := List.length_pos_of_mem hmem
  exact ⟨le_refl 2, hthm.1, (hthm.2.2 0 hlen).1⟩

namespace Part013

/-- Stride of principal axis `a` (0 = X, 1 = Y, 2 = Z). -/
def axisStride : ℕ → IVec3
  | 0 => strideX
  | 1 => strideY
  | _ => strideZ

/-- First perpendicular axis passed as `AxisB` in `MakeAllQuads`. -/
def axisPerpB : ℕ → IVec3
  | 0 => strideY
  | 1 => strideZ
  | _ => strideX

/-- Second perpendicular axis passed as `AxisC` in `MakeAllQuads`. -/
def axisPerpC : ℕ → IVec3
  | 0 => strideZ
  | 1 => strideX
  | _ => strideY

/-- The boundary guard `MakeAllQuads` places before the `MaybeCreateQuad`
call of axis `a` (part_013 lines 94, 108, 122). -/
def axisGuard (g : ℤ) (c : IVec3) : ℕ → Prop
  | 0 => 0 < c.y ∧ 0 < c.z ∧ c.x < g - 2
  | 1 => 0 < c.x ∧ 0 < c.z ∧ c.y < g - 2
  | _ => 0 < c.x ∧ 0 < c.y ∧ c.z < g - 2

instance (g : ℤ) (c : IVec3) (a : ℕ) : Decidable (axisGuard g c a) := by
  unfold axisGuard
  split <;> infer_instance

/-- The triangle indices `MakeAllQuads` emits for cell `c` along axis `a`. -/
def emittedQuad (field : List ℚ) (g : ℤ) (cells : List IVec3) (c : IVec3)
    (a : ℕ) : List ℤ :=
  if axisGuard g c a then
    MaybeCreateQuad field g cells c (c + axisStride a) (axisPerpB a) (axisPerpC a)
  else []

theorem cellQuads_eq_emitted (field : List ℚ) (g : ℤ) (cells : List IVec3)
    (c : IVec3) :
    cellQuads field g cells c =
      emittedQuad field g cells c 0 ++ emittedQuad field g cells c 1 ++
        emittedQuad field g cells c 2 := by
  simp only [cellQuads, emittedQuad, axisGuard, axisStride, axisPerpB, axisPerpC,
    List.append_assoc]

theorem getVertexIndex_ne_neg_one_iff {cells : List IVec3} {g x y z : ℤ} :
    GetVertexIndex cells g x y z ≠ -1 ↔
      (0 ≤ x ∧ x < g ∧ 0 ≤ y ∧ y < g ∧ 0 ≤ z ∧ z < g) ∧
        (⟨x, y, z⟩ : IVec3) ∈ cells := by
  unfold GetVertexIndex
  split_ifs with h1 h2
  · simp only [ne_eq, not_true_eq_false, false_iff, not_and]
    intro hb
    omega
  · simp only [ne_eq]
    constructor
    · intro _
      exact ⟨by omega, h2⟩
    · intro _
      omega
  · simp only [ne_eq, not_true_eq_false, false_iff, not_and]
    intro _
    exact h2

theorem getVertexIndex_eq_of_ne {cells : List IVec3} {g x y z : ℤ}
    (h : GetVertexIndex cells g x y z ≠ -1) :
    (⟨x, y, z⟩ : IVec3) ∈ cells ∧
      GetVertexIndex cells g x y z = (cells.indexOf (⟨x, y, z⟩ : IVec3) : ℤ) := by
  have hm := (getVertexIndex_ne_neg_one_iff.mp h)
  refine ⟨hm.2, ?_⟩
  unfold GetVertexIndex
  rw [if_neg (by omega), if_pos hm.2]

end Part013

namespace Part013

/-- Full characterization of `MaybeCreateQuad`: a face (two triangles) is
emitted iff the densities at the two lattice points have opposite sign and
all four cell-vertices around the edge exist; the winding is one orientation
when `D1 < 0` (cell interior) and the flipped one when `D1 ≥ 0`. -/
theorem maybeCreateQuad_spec (field : List ℚ) (g : ℤ) (cells : List IVec3)
    (P1 P2 B C : IVec3) :
    (MaybeCreateQuad field g cells P1 P2 B C ≠ [] ↔
        specEdgeCrosses (GetDensity field g P1.x P1.y P1.z)
          (GetDensity field g P2.x P2.y P2.z) ∧
        GetVertexIndex cells g P1.x P1.y P1.z ≠ -1 ∧
        GetVertexIndex cells g (P1.x - B.x) (P1.y - B.y) (P1.z - B.z) ≠ -1 ∧
        GetVertexIndex cells g (P1.x - C.x) (P1.y - C.y) (P1.z - C.z) ≠ -1 ∧
        GetVertexIndex cells g (P1.x - B.x - C.x) (P1.y - B.y - C.y)
          (P1.z - B.z - C.z) ≠ -1) ∧
      (MaybeCreateQuad field g cells P1 P2 B C ≠ [] →
        GetDensity field g P1.x P1.y P1.z < 0 →
        MaybeCreateQuad field g cells P1 P2 B C =
          [GetVertexIndex cells g P1.x P1.y P1.z,
           GetVertexIndex cells g (P1.x - B.x - C.x) (P1.y - B.y - C.y) (P1.z - B.z - C.z),
           GetVertexIndex cells g (P1.x - B.x) (P1.y - B.y) (P1.z - B.z),
           GetVertexIndex cells g P1.x P1.y P1.z,
           GetVertexIndex cells g (P1.x - C.x) (P1.y - C.y) (P1.z - C.z),
           GetVertexIndex cells g (P1.x - B.x - C.x) (P1.y - B.y - C.y) (P1.z - B.z - C.z)]) ∧
      (MaybeCreateQuad field g cells P1 P2 B C ≠ [] →
        0 ≤ GetDensity field g P1.x P1.y P1.z →
        MaybeCreateQuad field g cells P1 P2 B C =
          [GetVertexIndex cells g P1.x P1.y P1.z,
           GetVertexIndex cells g (P1.x - B.x) (P1.y - B.y) (P1.z - B.z),
           GetVertexIndex cells g (P1.x - B.x - C.x) (P1.y - B.y - C.y) (P1.z - B.z - C.z),
           GetVertexIndex cells g P1.x P1.y P1.z,
           GetVertexIndex cells g (P1.x - B.x - C.x) (P1.y - B.y - C.y) (P1.z - B.z - C.z),
           GetVertexIndex cells g (P1.x - C.x) (P1.y - C.y) (P1.z - C.z)]) ∧
      (MaybeCreateQuad field g cells P1 P2 B C = [] ∨
        (MaybeCreateQuad field g cells P1 P2 B C).length = 6) := by
  unfold MaybeCreateQuad
  dsimp only
  split_ifs with h1 h2 h3 h4
  · -- D1 < 0 ∧ 0 ≤ D2, some vertex missing
    refine ⟨?_, fun h => absurd rfl h, fun h => absurd rfl h, Or.inl rfl⟩
    constructor
    · intro h
      exact absurd rfl h
    · rintro ⟨-, hv1, hv2, hv3, hv4⟩
      rcases h2 with h | h | h | h
      · exact absurd h hv1
      · exact absurd h hv2
      · exact absurd h hv3
      · exact absurd h hv4
  · -- D1 < 0 ∧ 0 ≤ D2, all vertices present
    push_neg at h2
    refine ⟨?_, fun _ _ => rfl, ?_, Or.inr rfl⟩
    · simp only [ne_eq, specEdgeCrosses]
      constructor
      · intro _
        exact ⟨Or.inl h1, h2.1, h2.2.1, h2.2.2.1, h2.2.2.2⟩
      · intro _
        simp
    · intro _ h0
      exact absurd h1.1 (not_lt.mpr h0)
  · -- 0 ≤ D1 ∧ D2 < 0, some vertex missing
    refine ⟨?_, fun h => absurd rfl h, fun h => absurd rfl h, Or.inl rfl⟩
    constructor
    · intro h
      exact absurd rfl h
    · rintro ⟨-, hv1, hv2, hv3, hv4⟩
      rcases h4 with h | h | h | h
      · exact absurd h hv1
      · exact absurd h hv2
      · exact absurd h hv3
      · exact absurd h hv4
  · -- 0 ≤ D1 ∧ D2 < 0, all vertices present
    push_neg at h4
    refine ⟨?_, ?_, fun _ _ => rfl, Or.inr rfl⟩
    · simp only [ne_eq, specEdgeCrosses]
      constructor
      · intro _
        exact ⟨Or.inr h3, h4.1, h4.2.1, h4.2.2.1, h4.2.2.2⟩
      · intro _
        simp
    · intro _ h0
      exact absurd h0 (not_lt.mpr h3.1)
  · -- no sign change
    refine ⟨?_, fun h => absurd rfl h, fun h => absurd rfl h, Or.inl rfl⟩
    constructor
    · intro h
      exact absurd rfl h
    · rintro ⟨hcr, -⟩
      unfold specEdgeCrosses at hcr
      rcases hcr with h | h
      · exact absurd h h1
      · exact absurd h h3

end Part013

/-- **C3.** For a cell that produced a vertex and each principal axis: the two
triangles of a face are emitted iff the positive-axis neighbor is an in-bounds
cell, the densities at the two lattice points of the shared edge have opposite
sign, and all four cell-vertices around that edge exist; the winding is one
orientation when the cell's own sample is negative, the flipped orientation
when it is non-negative, and every emitted face has exactly 2 triangles. -/
theorem C3_phase_b_face_rule (field : List ℚ) (g : ℤ) (c : IVec3) (a : ℕ)
    (hc : c ∈ Part013.surfaceCells field g) (ha : a < 3) :
    (Part013.emittedQuad field g (Part013.surfaceCells field g) c a ≠ [] ↔
        (c + Part013.axisStride a) ∈ Part013.gridCells g ∧
          specEdgeCrosses (Part013.GetDensity field g c.x c.y c.z)
            (Part013.GetDensity field g (c + Part013.axisStride a).x
              (c + Part013.axisStride a).y (c + Part013.axisStride a).z) ∧
          (Part013.GetVertexIndex (Part013.surfaceCells field g) g c.x c.y c.z ≠ -1 ∧
            Part013.GetVertexIndex (Part013.surfaceCells field g) g
              (c.x - (Part013.axisPerpB a).x) (c.y - (Part013.axisPerpB a).y)
              (c.z - (Part013.axisPerpB a).z) ≠ -1 ∧
            Part013.GetVertexIndex (Part013.surfaceCells field g) g
              (c.x - (Part013.axisPerpC a).x) (c.y - (Part013.axisPerpC a).y)
              (c.z - (Part013.axisPerpC a).z) ≠ -1 ∧
            Part013.GetVertexIndex (Part013.surfaceCells field g) g
              (c.x - (Part013.axisPerpB a).x - (Part013.axisPerpC a).x)
              (c.y - (Part013.axisPerpB a).y - (Part013.axisPerpC a).y)
              (c.z - (Part013.axisPerpB a).z - (Part013.axisPerpC a).z) ≠ -1)) ∧
      (Part013.emittedQuad field g (Part013.surfaceCells field g) c a ≠ [] →
        Part013.GetDensity field g c.x c.y c.z < 0 →
        Part013.emittedQuad field g (Part013.surfaceCells field g) c a =
          [Part013.GetVertexIndex (Part013.surfaceCells field g) g c.x c.y c.z,
           Part013.GetVertexIndex (Part013.surfaceCells field g) g
             (c.x - (Part013.axisPerpB a).x - (Part013.axisPerpC a).x)
             (c.y - (Part013.axisPerpB a).y - (Part013.axisPerpC a).y)
             (c.z - (Part013.axisPerpB a).z - (Part013.axisPerpC a).z),
           Part013.GetVertexIndex (Part013.surfaceCells field g) g
             (c.x - (Part013.axisPerpB a).x) (c.y - (Part013.axisPerpB a).y)
             (c.z - (Part013.axisPerpB a).z),
           Part013.GetVertexIndex (Part013.surfaceCells field g) g c.x c.y c.z,
           Part013.GetVertexIndex (Part013.surfaceCells field g) g
             (c.x - (Part013.axisPerpC a).x) (c.y - (Part013.axisPerpC a).y)
             (c.z - (Part013.axisPerpC a).z),
           Part013.GetVertexIndex (Part013.surfaceCells field g) g
             (c.x - (Part013.axisPerpB a).x - (Part013.axisPerpC a).x)
             (c.y - (Part013.axisPerpB a).y - (Part013.axisPerpC a).y)
             (c.z - (Part013.axisPerpB a).z - (Part013.axisPerpC a).z)]) ∧
      (Part013.emittedQuad field g (Part013.surfaceCells field g) c a ≠ [] →
        0 ≤ Part013.GetDensity field g c.x c.y c.z →
        Part013.emittedQuad field g (Part013.surfaceCells field g) c a =
          [Part013.GetVertexIndex (Part013.surfaceCells field g) g c.x c.y c.z,
           Part013.GetVertexIndex (Part013.surfaceCells field g) g
             (c.x - (Part013.axisPerpB a).x) (c.y - (Part013.axisPerpB a).y)
             (c.z - (Part013.axisPerpB a).z),
           Part013.GetVertexIndex (Part013.surfaceCells field g) g
             (c.x - (Part013.axisPerpB a).x - (Part013.axisPerpC a).x)
             (c.y - (Part013.axisPerpB a).y - (Part013.axisPerpC a).y)
             (c.z - (Part013.axisPerpB a).z - (Part013.axisPerpC a).z),
           Part013.GetVertexIndex (Part013.surfaceCells field g) g c.x c.y c.z,
           Part013.GetVertexIndex (Part013.surfaceCells field g) g
             (c.x - (Part013.axisPerpB a).x - (Part013.axisPerpC a).x)
             (c.y - (Part013.axisPerpB a).y - (Part013.axisPerpC a).y)
             (c.z - (Part013.axisPerpB a).z - (Part013.axisPerpC a).z),
           Part013.GetVertexIndex (Part013.surfaceCells field g) g
             (c.x - (Part013.axisPerpC a).x) (c.y - (Part013.axisPerpC a).y)
             (c.z - (Part013.axisPerpC a).z)]) ∧
      (Part013.emittedQuad field g (Part013.surfaceCells field g) c a = [] ∨
        (Part013.emittedQuad field g (Part013.surfaceCells field g) c a).length = 6) := by
  have hspec := Part013.maybeCreateQuad_spec field g (Part013.surfaceCells field g) c
    (c + Part013.axisStride a) (Part013.axisPerpB a) (Part013.axisPerpC a)
  have hbounds := (Part013.mem_surfaceCells.mp hc).1
  by_cases hguard : Part013.axisGuard g c a
  · have hemit : Part013.emittedQuad field g (Part013.surfaceCells field g) c a =
        Part013.MaybeCreateQuad field g (Part013.surfaceCells field g) c
          (c + Part013.axisStride a) (Part013.axisPerpB a) (Part013.axisPerpC a) := by
      unfold Part013.emittedQuad
      rw [if_pos hguard]
    rw [hemit]
    refine ⟨?_, hspec.2.1, hspec.2.2.1, hspec.2.2.2⟩
    rw [hspec.1]
    constructor
    · rintro ⟨hcr, hv⟩
      refine ⟨?_, hcr, hv⟩
      rw [Part013.mem_gridCells]
      interval_cases a <;>
        simp only [Part013.axisStride, Part013.strideX, Part013.strideY, Part013.strideZ,
          Part013.axisGuard, IVec3.addI_def] at hguard ⊢ <;>
        omega
    · rintro ⟨-, hcr, hv⟩
      exact ⟨hcr, hv⟩
  · have hemit : Part013.emittedQuad field g (Part013.surfaceCells field g) c a = [] := by
      unfold Part013.emittedQuad
      rw [if_neg hguard]
    rw [hemit]
    refine ⟨?_, fun h => absurd rfl h, fun h => absurd rfl h, Or.inl rfl⟩
    constructor
    · intro h
      exact absurd rfl h
    · rintro ⟨hnb, -, -, hv2, hv3, -⟩
      exfalso
      apply hguard
      rw [Part013.mem_gridCells] at hnb
      have h2b := (Part013.getVertexIndex_ne_neg_one_iff.mp hv2).1
      have h3b := (Part013.getVertexIndex_ne_neg_one_iff.mp hv3).1
      interval_cases a <;>
        simp only [Part013.axisStride, Part013.strideX, Part013.strideY, Part013.strideZ,
          Part013.axisPerpB, Part013.axisPerpC, Part013.axisGuard,
          IVec3.addI_def] at hnb h2b h3b ⊢ <;>
        omega

theorem get?_range_map {α : Type} (f : ℕ → α) {n i : ℕ} (hi : i < n) :
    ((List.range n).map f).get? i = some (f i) := by
  rw [List.get?_eq_getElem?, List.getElem?_map, List.getElem?_range hi]
  rfl

/-- A 4³ density field for the C3 witness: `d(x,y,z) = 2x - 3`
(solid in the half-space `x ≤ 1`), laid out as `index = x + 4y + 16z`. -/
def c3field : List ℚ :=
  (List.range 64).map (fun p => 2 * ((p % 4 : ℕ) : ℚ) - 3)

theorem c3field_density {x y z : ℤ} (hx0 : 0 ≤ x) (hx : x < 4) (hy0 : 0 ≤ y)
    (hy : y < 4) (hz0 : 0 ≤ z) (hz : z < 4) :
    Part013.GetDensity c3field 4 x y z = 2 * (x : ℚ) - 3 := by
  unfold Part013.GetDensity c3field
  rw [if_neg (by omega), get?_range_map (fun p => 2 * ((p % 4 : ℕ) : ℚ) - 3)
    (show (x + y * 4 + z * 4 * 4).toNat < 64 by omega)]
  have hmod : (x + y * 4 + z * 4 * 4).toNat % 4 = x.toNat := by omega
  simp only [Option.getD_some, hmod]
  have : ((x.toNat : ℕ) : ℚ) = (x : ℚ) := by
    rw [← Int.toNat_of_nonneg hx0]
    push_cast
    rw [Int.toNat_of_nonneg hx0]
  rw [this]

theorem c3field_cell_mem (cy cz : ℤ) (h1 : 0 ≤ cy) (h2 : cy ≤ 2) (h3 : 0 ≤ cz)
    (h4 : cz ≤ 2) : (⟨1, cy, cz⟩ : IVec3) ∈ Part013.surfaceCells c3field 4 := by
  refine Part013.mem_surfaceCells.mpr ⟨by dsimp only; omega, ?_⟩
  rw [Part013.containsSurface_iff]
  constructor
  · refine ⟨Part013.GetDensity c3field 4 1 cy cz, ?_, ?_⟩
    · refine List.mem_map.mpr ⟨⟨0, 0, 0⟩, by norm_num [Part013.CubeCorners], ?_⟩
      dsimp only
      norm_num
    · rw [c3field_density (by norm_num) (by norm_num) h1 (by omega) h3 (by omega)]
      norm_num
  · refine ⟨Part013.GetDensity c3field 4 2 cy cz, ?_, ?_⟩
    · refine List.mem_map.mpr ⟨⟨1, 0, 0⟩, by norm_num [Part013.CubeCorners], ?_⟩
      dsimp only
      norm_num
    · rw [c3field_density (by norm_num) (by norm_num) h1 (by omega) h3 (by omega)]
      norm_num

theorem c3field_vertex_ne (cy cz : ℤ) (h1 : 0 ≤ cy) (h2 : cy ≤ 2) (h3 : 0 ≤ cz)
    (h4 : cz ≤ 2) :
    Part013.GetVertexIndex (Part013.surfaceCells c3field 4) 4 1 cy cz ≠ -1 :=
  Part013.getVertexIndex_ne_neg_one_iff.mpr ⟨by omega, c3field_cell_mem cy cz h1 h2 h3 h4⟩

theorem c3field_d111 : Part013.GetDensity c3field 4 1 1 1 = -1 := by
  rw [c3field_density (by norm_num) (by norm_num) (by norm_num) (by norm_num)
    (by norm_num) (by norm_num)]
  norm_num

theorem c3field_d211 : Part013.GetDensity c3field 4 2 1 1 = 1 := by
  rw [c3field_density (by norm_num) (by norm_num) (by norm_num) (by norm_num)
    (by norm_num) (by norm_num)]
  norm_num

/-- Witness for C3: on `c3field`, cell `(1,1,1)` along the X axis emits a
face of exactly two triangles. -/
theorem C3_phase_b_face_rule_witness :
    Part013.emittedQuad c3field 4 (Part013.surfaceCells c3field 4) ⟨1, 1, 1⟩ 0 ≠ [] ∧
      (Part013.emittedQuad c3field 4
        (Part013.surfaceCells c3field 4) ⟨1, 1, 1⟩ 0).length = 6 := by
  have hc := c3field_cell_mem 1 1 (by norm_num) (by norm_num) (by norm_num) (by norm_num)
  have hthm := C3_phase_b_face_rule c3field 4 ⟨1, 1, 1⟩ 0 hc (by norm_num)
  have hne : Part013.emittedQuad c3field 4
      (Part013.surfaceCells c3field 4) ⟨1, 1, 1⟩ 0 ≠ [] := by
    rw [hthm.1]
    simp only [Part013.axisStride, Part013.axisPerpB, Part013.axisPerpC, Part013.strideX,
      Part013.strideY, Part013.strideZ, IVec3.addI_def]
    refine ⟨by decide, ?_, ?_, ?_, ?_, ?_⟩
    · unfold specEdgeCrosses
      left
      constructor <;> norm_num [c3field_d111, c3field_d211]
    · simpa using c3field_vertex_ne 1 1 (by norm_num) (by norm_num)
        (by norm_num) (by norm_num)
    · simpa using c3field_vertex_ne 0 1 (by norm_num) (by norm_num)
        (by norm_num) (by norm_num)
    · simpa using c3field_vertex_ne 1 0 (by norm_num) (by norm_num)
        (by norm_num) (by norm_num)
    · simpa using c3field_vertex_ne 0 0 (by norm_num) (by norm_num)
        (by norm_num) (by norm_num)
  exact ⟨hne, Or.resolve_left hthm.2.2.2 hne⟩

/-- Well-formed triangle index lists: consecutive triples of indices in
`[0, n)` with no two indices of a triple equal. -/
inductive GoodTris (n : ℕ) : List ℤ → Prop
  | nil : GoodTris n []
  | cons (a b c : ℤ) (rest : List ℤ) :
      0 ≤ a → a < (n : ℤ) → 0 ≤ b → b < (n : ℤ) → 0 ≤ c → c < (n : ℤ) →
      a ≠ b → b ≠ c → a ≠ c → GoodTris n rest → GoodTris n (a :: b :: c :: rest)

theorem GoodTris.append {n : ℕ} {l1 l2 : List ℤ} (h1 : GoodTris n l1)
    (h2 : GoodTris n l2) : GoodTris n (l1 ++ l2) := by
  induction h1 with
  | nil => exact h2
  | cons a b c rest ha0 ha1 hb0 hb1 hc0 hc1 hab hbc hac _ ih =>
    exact GoodTris.cons a b c _ ha0 ha1 hb0 hb1 hc0 hc1 hab hbc hac ih

theorem goodTris_flatMap {n : ℕ} {α : Type} {l : List α} {f : α → List ℤ}
    (h : ∀ x ∈ l, GoodTris n (f x)) : GoodTris n (l.flatMap f) := by
  induction l with
  | nil => exact GoodTris.nil
  | cons a rest ih =>
    rw [List.flatMap_cons]
    exact (h a (List.mem_cons_self a rest)).append
      (ih fun x hx => h x (List.mem_cons_of_mem a hx))

theorem GoodTris.length_mod {n : ℕ} {l : List ℤ} (h : GoodTris n l) :
    l.length % 3 = 0 := by
  induction h with
  | nil => rfl
  | cons a b c rest _ _ _ _ _ _ _ _ _ _ ih =>
    simp only [List.length_cons]
    omega

theorem GoodTris.mem_bounds {n : ℕ} {l : List ℤ} (h : GoodTris n l) :
    ∀ t ∈ l, 0 ≤ t ∧ t < (n : ℤ) := by
  induction h with
  | nil => intro t ht; cases ht
  | cons a b c rest ha0 ha1 hb0 hb1 hc0 hc1 _ _ _ _ ih =>
    intro t ht
    rcases List.mem_cons.mp ht with rfl | ht
    · exact ⟨ha0, ha1⟩
    rcases List.mem_cons.mp ht with rfl | ht
    · exact ⟨hb0, hb1⟩
    rcases List.mem_cons.mp ht with rfl | ht
    · exact ⟨hc0, hc1⟩
    exact ih t ht

theorem GoodTris.triple_ne {n : ℕ} {l : List ℤ} (h : GoodTris n l) :
    ∀ k : ℕ, 3 * k + 2 < l.length →
      l.getD (3 * k) 0 ≠ l.getD (3 * k + 1) 0 ∧
        l.getD (3 * k + 1) 0 ≠ l.getD (3 * k + 2) 0 ∧
        l.getD (3 * k) 0 ≠ l.getD (3 * k + 2) 0 := by
  induction h with
  | nil => intro k hk; simp at hk
  | cons a b c rest _ _ _ _ _ _ hab hbc hac _ ih =>
    intro k hk
    match k with
    | 0 => exact ⟨hab, hbc, hac⟩
    | k + 1 =>
      have e0 : 3 * (k + 1) = 3 * k + 1 + 1 + 1 := by ring
      rw [e0]
      have e4 : 3 * k + 1 + 1 + 1 + 2 = 3 * k + 2 + 1 + 1 + 1 := by ring
      rw [e4]
      simp only [List.getD_cons_succ]
      refine ih k ?_
      simp only [List.length_cons] at hk
      omega

namespace Part013

theorem indexOf_ne_of_ne {cells : List IVec3} {p q : IVec3} (hp : p ∈ cells)
    (hq : q ∈ cells) (hne : p ≠ q) :
    ((cells.indexOf p : ℕ) : ℤ) ≠ ((cells.indexOf q : ℕ) : ℤ) := by
  intro he
  exact hne ((List.indexOf_inj hp hq).mp (by exact_mod_cast he))

theorem indexOf_bounds {cells : List IVec3} {p : IVec3} (hp : p ∈ cells) :
    0 ≤ ((cells.indexOf p : ℕ) : ℤ) ∧
      ((cells.indexOf p : ℕ) : ℤ) < (cells.length : ℤ) := by
  refine ⟨Int.natCast_nonneg _, ?_⟩
  exact_mod_cast List.indexOf_lt_length.mpr hp

/-- Both windings of a quad over four distinct surface cells are
well-formed triangle lists. -/
theorem goodTris_quad_block {cells : List IVec3} {q1 q2 q3 q4 : IVec3}
    (hm1 : q1 ∈ cells) (hm2 : q2 ∈ cells) (hm3 : q3 ∈ cells) (hm4 : q4 ∈ cells)
    (h12 : q1 ≠ q2) (h13 : q1 ≠ q3) (h14 : q1 ≠ q4) (h23 : q2 ≠ q3)
    (h24 : q2 ≠ q4) (h34 : q3 ≠ q4) :
    GoodTris cells.length
        [((cells.indexOf q1 : ℕ) : ℤ), ((cells.indexOf q4 : ℕ) : ℤ),
         ((cells.indexOf q2 : ℕ) : ℤ), ((cells.indexOf q1 : ℕ) : ℤ),
         ((cells.indexOf q3 : ℕ) : ℤ), ((cells.indexOf q4 : ℕ) : ℤ)] ∧
      GoodTris cells.length
        [((cells.indexOf q1 : ℕ) : ℤ), ((cells.indexOf q2 : ℕ) : ℤ),
         ((cells.indexOf q4 : ℕ) : ℤ), ((cells.indexOf q1 : ℕ) : ℤ),
         ((cells.indexOf q4 : ℕ) : ℤ), ((cells.indexOf q3 : ℕ) : ℤ)] := by
  have b1 := indexOf_bounds hm1
  have b2 := indexOf_bounds hm2
  have b3 := indexOf_bounds hm3
  have b4 := indexOf_bounds hm4
  have i12 := indexOf_ne_of_ne hm1 hm2 h12
  have i13 := indexOf_ne_of_ne hm1 hm3 h13
  have i14 := indexOf_ne_of_ne hm1 hm4 h14
  have i23 := indexOf_ne_of_ne hm2 hm3 h23
  have i24 := indexOf_ne_of_ne hm2 hm4 h24
  have i34 := indexOf_ne_of_ne hm3 hm4 h34
  constructor
  · refine GoodTris.cons _ _ _ _ b1.1 b1.2 b4.1 b4.2 b2.1 b2.2
      i14 (fun h => i24 h.symm) i12 ?_
    refine GoodTris.cons _ _ _ _ b1.1 b1.2 b3.1 b3.2 b4.1 b4.2
      i13 i34 i14 GoodTris.nil
  · refine GoodTris.cons _ _ _ _ b1.1 b1.2 b2.1 b2.2 b4.1 b4.2
      i12 i24 i14 ?_
    refine GoodTris.cons _ _ _ _ b1.1 b1.2 b4.1 b4.2 b3.1 b3.2
      i14 (fun h => i34 h.symm) i13 GoodTris.nil

/-- Every `MaybeCreateQuad` output is a well-formed triangle list when the
two perpendicular axes are nonzero, distinct, and not opposite. -/
theorem goodTris_maybeCreateQuad (field : List ℚ) (g : ℤ) (cells : List IVec3)
    (P1 P2 B C : IVec3)
    (hB : ¬(B.x = 0 ∧ B.y = 0 ∧ B.z = 0))
    (hC : ¬(C.x = 0 ∧ C.y = 0 ∧ C.z = 0))
    (hBC : ¬(B.x = C.x ∧ B.y = C.y ∧ B.z = C.z))
    (hBCs : ¬(B.x + C.x = 0 ∧ B.y + C.y = 0 ∧ B.z + C.z = 0)) :
    GoodTris cells.length (MaybeCreateQuad field g cells P1 P2 B C) := by
  unfold MaybeCreateQuad
  dsimp only
  split_ifs with h1 h2 h3 h4
  · exact GoodTris.nil
  · push_neg at h2
    obtain ⟨hv1, hv2, hv3, hv4⟩ := h2
    have m1 := getVertexIndex_eq_of_ne hv1
    have m2 := getVertexIndex_eq_of_ne hv2
    have m3 := getVertexIndex_eq_of_ne hv3
    have m4 := getVertexIndex_eq_of_ne hv4
    rw [m1.2, m2.2, m3.2, m4.2]
    refine (goodTris_quad_block m1.1 m2.1 m3.1 m4.1 ?_ ?_ ?_ ?_ ?_ ?_).1 <;>
      (intro h; simp only [IVec3.mk.injEq] at h)
    · exact hB ⟨by omega, by omega, by omega⟩
    · exact hC ⟨by omega, by omega, by omega⟩
    · exact hBCs ⟨by omega, by omega, by omega⟩
    · exact hBC ⟨by omega, by omega, by omega⟩
    · exact hC ⟨by omega, by omega, by omega⟩
    · exact hB ⟨by omega, by omega, by omega⟩
  · exact GoodTris.nil
  · push_neg at h4
    obtain ⟨hv1, hv2, hv3, hv4⟩ := h4
    have m1 := getVertexIndex_eq_of_ne hv1
    have m2 := getVertexIndex_eq_of_ne hv2
    have m3 := getVertexIndex_eq_of_ne hv3
    have m4 := getVertexIndex_eq_of_ne hv4
    rw [m1.2, m2.2, m3.2, m4.2]
    refine (goodTris_quad_block m1.1 m2.1 m3.1 m4.1 ?_ ?_ ?_ ?_ ?_ ?_).2 <;>
      (intro h; simp only [IVec3.mk.injEq] at h)
    · exact hB ⟨by omega, by omega, by omega⟩
    · exact hC ⟨by omega, by omega, by omega⟩
    · exact hBCs ⟨by omega, by omega, by omega⟩
    · exact hBC ⟨by omega, by omega, by omega⟩
    · exact hC ⟨by omega, by omega, by omega⟩
    · exact hB ⟨by omega, by omega, by omega⟩
  · exact GoodTris.nil

/-- `MakeAllQuads` only emits well-formed triangle blocks. -/
theorem goodTris_makeAllQuads (field : List ℚ) (g : ℤ) (cells : List IVec3) :
    GoodTris cells.length (MakeAllQuads field g cells) := by
  unfold MakeAllQuads
  refine goodTris_flatMap ?_
  intro c _
  unfold cellQuads
  refine GoodTris.append (GoodTris.append ?_ ?_) ?_ <;> split_ifs with h
  · exact goodTris_maybeCreateQuad field g cells c (c + strideX) strideY strideZ
      (by decide) (by decide) (by decide) (by decide)
  · exact GoodTris.nil
  · exact goodTris_maybeCreateQuad field g cells c (c + strideY) strideZ strideX
      (by decide) (by decide) (by decide) (by decide)
  · exact GoodTris.nil
  · exact goodTris_maybeCreateQuad field g cells c (c + strideZ) strideX strideY
      (by decide) (by decide) (by decide) (by decide)
  · exact GoodTris.nil

end Part013

/-- **C9.** Every mesh produced by the extractor is well-formed: the normal
and vertex lists have equal length, the triangle index list has length a
multiple of 3, every index is a valid vertex index, and no triangle has two
identical vertex indices. -/
theorem C9_mesh_well_formed (field : List ℚ) (g : ℤ) (voxelSize : ℚ)
    (origin : Vec3) (gsn : Vec3 → Vec3) :
    ((Part013.GenerateMesh field g voxelSize origin gsn).2.2.length =
        (Part013.GenerateMesh field g voxelSize origin gsn).1.length) ∧
      ((Part013.GenerateMesh field g voxelSize origin gsn).2.1.length % 3 = 0) ∧
      (∀ t ∈ (Part013.GenerateMesh field g voxelSize origin gsn).2.1,
        0 ≤ t ∧
          t < ((Part013.GenerateMesh field g voxelSize origin gsn).1.length : ℤ)) ∧
      (∀ k : ℕ,
        3 * k + 2 < (Part013.GenerateMesh field g voxelSize origin gsn).2.1.length →
        (Part013.GenerateMesh field g voxelSize origin gsn).2.1.getD (3 * k) 0 ≠
            (Part013.GenerateMesh field g voxelSize origin gsn).2.1.getD (3 * k + 1) 0 ∧
          (Part013.GenerateMesh field g voxelSize origin gsn).2.1.getD (3 * k + 1) 0 ≠
            (Part013.GenerateMesh field g voxelSize origin gsn).2.1.getD (3 * k + 2) 0 ∧
          (Part013.GenerateMesh field g voxelSize origin gsn).2.1.getD (3 * k) 0 ≠
            (Part013.GenerateMesh field g voxelSize origin gsn).2.1.getD (3 * k + 2) 0) := by
  unfold Part013.GenerateMesh
  split_ifs with hg
  · refine ⟨rfl, rfl, ?_, ?_⟩
    · intro t ht
      cases ht
    · intro k hk
      simp at hk
  · dsimp only
    have hgood := Part013.goodTris_makeAllQuads field g (Part013.surfaceCells field g)
    refine ⟨by rw [List.length_map, List.length_map], hgood.length_mod, ?_, ?_⟩
    · intro t ht
      rw [List.length_map]
      exact hgood.mem_bounds t ht
    · exact hgood.triple_ne

/-- Witness for C9 on `c3field`: the mesh has matching lengths, a nonempty
valid triangle list, and a non-degenerate first triangle. -/
theorem C9_mesh_well_formed_witness :
    ((Part013.GenerateMesh c3field 4 1 ⟨0, 0, 0⟩ (fun v => v)).2.2.length =
        (Part013.GenerateMesh c3field 4 1 ⟨0, 0, 0⟩ (fun v => v)).1.length) ∧
      ((Part013.GenerateMesh c3field 4 1 ⟨0, 0, 0⟩ (fun v => v)).2.1.length % 3 = 0) ∧
      (∃ t ∈ (Part013.GenerateMesh c3field 4 1 ⟨0, 0, 0⟩ (fun v => v)).2.1,
        0 ≤ t ∧
          t < ((Part013.GenerateMesh c3field 4 1 ⟨0, 0, 0⟩ (fun v => v)).1.length : ℤ)) ∧
      ((Part013.GenerateMesh c3field 4 1 ⟨0, 0, 0⟩ (fun v => v)).2.1.getD 0 0 ≠
        (Part013.GenerateMesh c3field 4 1 ⟨0, 0, 0⟩ (fun v => v)).2.1.getD 1 0) := by
  have hthm := C9_mesh_well_formed c3field 4 1 ⟨0, 0, 0⟩ (fun v => v)
  have hc := c3field_cell_mem 1 1 (by norm_num) (by norm_num) (by norm_num) (by norm_num)
  -- the X-axis quad of cell (1,1,1) is emitted
  have hmcq : Part013.MaybeCreateQuad c3field 4 (Part013.surfaceCells c3field 4)
      ⟨1, 1, 1⟩ (⟨1, 1, 1⟩ + Part013.strideX) Part013.strideY Part013.strideZ ≠ [] := by
    rw [(Part013.maybeCreateQuad_spec c3field 4 (Part013.surfaceCells c3field 4)
      ⟨1, 1, 1⟩ (⟨1, 1, 1⟩ + Part013.strideX) Part013.strideY Part013.strideZ).1]
    simp only [Part013.strideX, Part013.strideY, Part013.strideZ, IVec3.addI_def]
    refine ⟨?_, ?_, ?_, ?_, ?_⟩
    · unfold specEdgeCrosses
      left
      constructor <;> norm_num [c3field_d111, c3field_d211]
    · simpa using c3field_vertex_ne 1 1 (by norm_num) (by norm_num)
        (by norm_num) (by norm_num)
    · simpa using c3field_vertex_ne 0 1 (by norm_num) (by norm_num)
        (by norm_num) (by norm_num)
    · simpa using c3field_vertex_ne 1 0 (by norm_num) (by norm_num)
        (by norm_num) (by norm_num)
    · simpa using c3field_vertex_ne 0 0 (by norm_num) (by norm_num)
        (by norm_num) (by norm_num)
  obtain ⟨t0, ht0⟩ := List.exists_mem_of_ne_nil _ hmcq
  have htris : t0 ∈ (Part013.GenerateMesh c3field 4 1 ⟨0, 0, 0⟩ (fun v => v)).2.1 := by
    unfold Part013.GenerateMesh
    rw [if_neg (by norm_num)]
    dsimp only
    unfold Part013.MakeAllQuads
    refine List.mem_flatMap.mpr ⟨⟨1, 1, 1⟩, hc, ?_⟩
    unfold Part013.cellQuads
    refine List.mem_append.mpr (Or.inl (List.mem_append.mpr (Or.inl ?_)))
    rw [if_pos (by norm_num)]
    exact ht0
  have hlen3 : 2 < (Part013.GenerateMesh c3field 4 1 ⟨0, 0, 0⟩ (fun v => v)).2.1.length := by
    have h1 := List.length_pos_of_mem htris
    have h2 := hthm.2.1
    omega
  refine ⟨hthm.1, hthm.2.1, ⟨t0, htris, hthm.2.2.1 t0 htris⟩, ?_⟩
  have := hthm.2.2.2 0 (by simpa using hlen3)
  simpa using this.1

/-! ### The `Private/SurfaceNets.cpp` extractor variant (first unit)

This translation unit differs from the part_013 extractor: its `GetDensity`
clamps coordinates into range instead of returning a sentinel, and its
`CalculateGradient` returns the NEGATED central difference. -/

namespace SNCpp

/-- `FMath::Clamp` on `int32` values. -/
def iclamp (v lo hi : ℤ) : ℤ :=
  if v < lo then lo else if hi < v then hi else v

/-- `FSurfaceNets::GetDensity` (SurfaceNets.cpp lines 280–295): coordinates
are clamped to `[0, GridSize-1]`, then the flat index is bounds-checked
against the array length, defaulting to `+1.0`. -/
def GetDensity (field : List ℚ) (g x y z : ℤ) : ℚ :=
  let x := iclamp x 0 (g - 1)
  let y := iclamp y 0 (g - 1)
  let z := iclamp z 0 (g - 1)
  let Index := x + y * g + z * g * g
  if 0 ≤ Index ∧ Index < (field.length : ℤ) then (field.get? Index.toNat).getD 1
  else 1

/-- `FSurfaceNets::CalculateGradient` (SurfaceNets.cpp lines 266–278):
central differences, returned NEGATED (`return -Gradient`). -/
def CalculateGradient (field : List ℚ) (g x y z : ℤ) : Vec3 :=
  let Gradient : Vec3 :=
    ⟨GetDensity field g (x + 1) y z - GetDensity field g (x - 1) y z,
     GetDensity field g x (y + 1) z - GetDensity field g x (y - 1) z,
     GetDensity field g x y (z + 1) - GetDensity field g x y (z - 1)⟩;
  -Gradient

end SNCpp

@[simp] theorem Vec3.negV_def (a : Vec3) : -a = ⟨-a.x, -a.y, -a.z⟩ := rfl

/-- The spec's central-difference gradient
`(d(x+1)-d(x-1), d(y+1)-d(y-1), d(z+1)-d(z-1))` at a lattice point, for a
density sampler `d` (claim C4's wording, before the negation). -/
def specCentralDiff (d : ℤ → ℤ → ℤ → ℚ) (x y z : ℤ) : Vec3 :=
  ⟨d (x + 1) y z - d (x - 1) y z,
   d x (y + 1) z - d x (y - 1) z,
   d x y (z + 1) - d x y (z - 1)⟩

/-- **C4 (counterexample).** In the cited part_013 extractor the stored
normal is the normalization of the UN-negated gradient: on a concrete field
the emitted normal equals the raw central difference `(4, 0, 0)` and differs
from the normalization of the negated gradient (normalizer instantiated to
the identity). -/
theorem C4_unnegated_gradient_counterexample :
    ∃ v ∈ (Part013.GenerateMesh c3field 4 1 ⟨0, 0, 0⟩ (fun w => w)).2.2,
      v = Part013.CalculateGradient c3field 4 1 1 1 ∧
        Part013.CalculateGradient c3field 4 1 1 1 = ⟨4, 0, 0⟩ ∧
        v ≠ (fun w => w) (-Part013.CalculateGradient c3field 4 1 1 1) := by
  have hc := c3field_cell_mem 1 1 (by norm_num) (by norm_num) (by norm_num) (by norm_num)
  have hgrad : Part013.CalculateGradient c3field 4 1 1 1 = ⟨4, 0, 0⟩ := by
    unfold Part013.CalculateGradient
    have h0 := @c3field_density 0 1 1 (by norm_num) (by norm_num) (by norm_num)
      (by norm_num) (by norm_num) (by norm_num)
    have h2 := @c3field_density 2 1 1 (by norm_num) (by norm_num) (by norm_num)
      (by norm_num) (by norm_num) (by norm_num)
    have h10 := @c3field_density 1 0 1 (by norm_num) (by norm_num) (by norm_num)
      (by norm_num) (by norm_num) (by norm_num)
    have h12 := @c3field_density 1 2 1 (by norm_num) (by norm_num) (by norm_num)
      (by norm_num) (by norm_num) (by norm_num)
    have h11a := @c3field_density 1 1 0 (by norm_num) (by norm_num) (by norm_num)
      (by norm_num) (by norm_num) (by norm_num)
    have h11b := @c3field_density 1 1 2 (by norm_num) (by norm_num) (by norm_num)
      (by norm_num) (by norm_num) (by norm_num)
    norm_num [h0, h2, h10, h12, h11a, h11b, Vec3.mk.injEq]
  refine ⟨Part013.CalculateGradient c3field 4 1 1 1, ?_, rfl, hgrad, ?_⟩
  · unfold Part013.GenerateMesh
    rw [if_neg (by norm_num)]
    dsimp only
    exact List.mem_map.mpr ⟨⟨1, 1, 1⟩, hc, rfl⟩
  · rw [hgrad]
    intro h
    rw [Vec3.mk.injEq] at h
    norm_num [Vec3.negV_def] at h

/-- **C4 (amended).** In the cited part_013 extractor every stored normal is
the normalization of the UN-negated central-difference gradient at the
vertex's cell base corner; the negation described by the spec occurs only in
the `Private/SurfaceNets.cpp` variant, whose `CalculateGradient` returns the
negated central difference of its clamped density sampler. -/
theorem C4_normal_gradient_rule (field : List ℚ) (g : ℤ) (voxelSize : ℚ)
    (origin : Vec3) (gsn : Vec3 → Vec3) (hg : 2 ≤ g) :
    ((Part013.GenerateMesh field g voxelSize origin gsn).2.2.length =
        (Part013.surfaceCells field g).length) ∧
      (∀ i, i < (Part013.GenerateMesh field g voxelSize origin gsn).2.2.length →
        (Part013.GenerateMesh field g voxelSize origin gsn).2.2.getD i Vec3.zero =
          gsn (specCentralDiff (Part013.GetDensity field g)
            (cellAt field g i).x (cellAt field g i).y (cellAt field g i).z)) ∧
      (∀ x y z : ℤ, SNCpp.CalculateGradient field g x y z =
        -(specCentralDiff (SNCpp.GetDensity field g) x y z)) := by
  unfold Part013.GenerateMesh
  rw [if_neg (by omega)]
  dsimp only
  refine ⟨List.length_map _ _, ?_, fun x y z => rfl⟩
  intro i hi
  rw [List.length_map] at hi
  rw [getD_map_of_lt _ _ hi _ (⟨0, 0, 0⟩ : IVec3)]
  rfl

/-- Witness for C4 (amended) at a concrete field and grid. -/
theorem C4_normal_gradient_rule_witness :
    ((Part013.GenerateMesh c3field 4 1 ⟨0, 0, 0⟩ (fun w => w)).2.2.length =
        (Part013.surfaceCells c3field 4).length) ∧
      (∀ i, i < (Part013.GenerateMesh c3field 4 1 ⟨0, 0, 0⟩ (fun w => w)).2.2.length →
        (Part013.GenerateMesh c3field 4 1 ⟨0, 0, 0⟩ (fun w => w)).2.2.getD i Vec3.zero =
          (fun w => w) (specCentralDiff (Part013.GetDensity c3field 4)
            (cellAt c3field 4 i).x (cellAt c3field 4 i).y (cellAt c3field 4 i).z)) ∧
      (∀ x y z : ℤ, SNCpp.CalculateGradient c3field 4 x y z =
        -(specCentralDiff (SNCpp.GetDensity c3field 4) x y z)) :=
  C4_normal_gradient_rule c3field 4 1 ⟨0, 0, 0⟩ (fun w => w) (by norm_num)

/-! ### The part_016 chunk variant -/

namespace Part016

/-- `FPlanetChunk` (part_016 / the header variant with a `VoxelResolution`
member).  The `UNoiseGenerator*` pointer is modelled as an optional density
sampler `Option (Vec3 → ℚ)`. -/
structure Chunk where
  Position : Vec3
  LODLevel : ℤ
  Size : ℚ
  VoxelResolution : ℤ
  Vertices : List Vec3
  Triangles : List ℤ
  Normals : List Vec3
  UVs : List Vec2
  bIsGenerated : Bool
  bIsGenerating : Bool
  DistanceFromCamera : ℚ

/-- `OutPaddedSize = VoxelResolution + 2 * Padding` with `Padding = 1`
(part_016 lines 94–95). -/
def Chunk.paddedSize (c : Chunk) : ℤ := c.VoxelResolution + 2

/-- `OutVoxelSize = Size / float(VoxelResolution)` (part_016 line 96). -/
def Chunk.voxelSize (c : Chunk) : ℚ := c.Size / (c.VoxelResolution : ℚ)

/-- `OutPaddedOrigin = (Position - FVector(Size*0.5)) - FVector(Padding*VoxelSize)`
(part_016 lines 99–100). -/
def Chunk.paddedOrigin (c : Chunk) : Vec3 :=
  c.Position - ⟨c.Size / 2, c.Size / 2, c.Size / 2⟩
    - ⟨c.voxelSize, c.voxelSize, c.voxelSize⟩

/-- The world position sampled for padded grid point `(x, y, z)`
(part_016 lines 120–124). -/
def Chunk.samplePos (c : Chunk) (x y z : ℤ) : Vec3 :=
  c.paddedOrigin +
    ⟨(x : ℚ) * c.voxelSize, (y : ℚ) * c.voxelSize, (z : ℚ) * c.voxelSize⟩

/-- The padded density field in flat `x + y*N + z*N*N` layout
(part_016 lines 114–153, the write at line 126/128). -/
def Chunk.paddedField (c : Chunk) (noise : Vec3 → ℚ) : List ℚ :=
  (List.range (c.paddedSize * c.paddedSize * c.paddedSize).toNat).map (fun i : ℕ =>
    noise (c.samplePos ((i : ℤ) % c.paddedSize)
      ((i : ℤ) / c.paddedSize % c.paddedSize)
      ((i : ℤ) / c.paddedSize / c.paddedSize)))

/-- `bHasSurface = bHasPositive && bHasNegativeOrZero` over the whole field
(part_016 lines 106–165): both a `> 0` sample and a `≤ 0` sample occur. -/
def Chunk.hasSurface (c : Chunk) (noise : Vec3 → ℚ) : Bool :=
  ((c.paddedField noise).any fun d => decide (0 < d)) &&
    ((c.paddedField noise).any fun d => decide (d ≤ 0))

/-- `FPlanetChunk::ClearMesh` (part_016 lines 168–175). -/
def Chunk.ClearMesh (c : Chunk) : Chunk :=
  { c with Vertices := [], Triangles := [], Normals := [], UVs := [],
           bIsGenerated := false }

/-- `FPlanetChunk::GenerateMesh` (part_016 lines 28–79).  The bounds-taking
`FSurfaceNets::GenerateMesh` overload it calls is declared in the headers
but has no implementation among the repository's files, so it enters as the
parameter `extract` (field, paddedSize, voxelSize, origin, minBounds,
maxBounds ↦ (vertices, triangles, normals)); the theorems below hold for
every `extract`. -/
def Chunk.GenerateMesh (c : Chunk) (noiseOpt : Option (Vec3 → ℚ))
    (extract : List ℚ → ℤ → ℚ → Vec3 → IVec3 → IVec3 →
      List Vec3 × List ℤ × List Vec3) : Chunk × Bool :=
  if c.bIsGenerating = true ∨ c.bIsGenerated = true ∨ noiseOpt.isNone = true then
    (c, false)
  else
    match noiseOpt with
    | none => (c, false)
    | some noise =>
      let c1 := ({ c with bIsGenerating := true }).ClearMesh
      if ¬ c1.hasSurface noise = true then
        ({ c1 with bIsGenerating := false }, false)
      else
        let mesh := extract (c1.paddedField noise) c1.paddedSize c1.voxelSize
          c1.paddedOrigin (⟨0, 0, 0⟩ : IVec3)
          (⟨c1.VoxelResolution + 1, c1.VoxelResolution + 1,
            c1.VoxelResolution + 1⟩ : IVec3)
        let chunkMin : Vec3 :=
          c1.Position - (⟨c1.Size / 2, c1.Size / 2, c1.Size / 2⟩ : Vec3)
        ({ c1 with
            Vertices := mesh.1, Triangles := mesh.2.1, Normals := mesh.2.2,
            UVs := mesh.1.map (fun v : Vec3 =>
              (⟨((v - chunkMin) / c1.Size).x, ((v - chunkMin) / c1.Size).y⟩ : Vec2)),
            bIsGenerated := true, bIsGenerating := false }, true)

end Part016

/-! ### The part_018 chunk variant -/

/-- `UNPADDED_CHUNK_SIZE` (part_000 line 41). -/
def UNPADDED_CHUNK_SIZE : ℤ := 16

/-- `PADDED_CHUNK_SIZE` (part_000 line 42). -/
def PADDED_CHUNK_SIZE : ℤ := 18

namespace Part018

/-- `FPlanetChunk` (part_018 / the header variant with a `bIsEmpty` flag and
no `VoxelResolution` member). -/
structure Chunk where
  Position : Vec3
  LODLevel : ℤ
  Size : ℚ
  Vertices : List Vec3
  Triangles : List ℤ
  Normals : List Vec3
  UVs : List Vec2
  bIsGenerated : Bool
  bIsGenerating : Bool
  bIsEmpty : Bool
  DistanceFromCamera : ℚ

/-- `OutVoxelSize = Size / UNPADDED_CHUNK_SIZE` (part_018 line 127). -/
def Chunk.voxelSize (c : Chunk) : ℚ := c.Size / (UNPADDED_CHUNK_SIZE : ℚ)

/-- `OutPaddedOrigin = Position - FVector(Size*0.5) - FVector(VoxelSize)`
(part_018 line 130). -/
def Chunk.paddedOrigin (c : Chunk) : Vec3 :=
  c.Position - ⟨c.Size / 2, c.Size / 2, c.Size / 2⟩
    - ⟨c.voxelSize, c.voxelSize, c.voxelSize⟩

/-- The world position sampled for padded grid point `(x, y, z)`
(part_018 lines 147–151). -/
def Chunk.samplePos (c : Chunk) (x y z : ℤ) : Vec3 :=
  c.paddedOrigin +
    ⟨(x : ℚ) * c.voxelSize, (y : ℚ) * c.voxelSize, (z : ℚ) * c.voxelSize⟩

/-- The `PADDED_CHUNK_SIZE`-cubed density field in flat `x + y*N + z*N*N`
layout (part_018 lines 125–157). -/
def Chunk.paddedField (c : Chunk) (noise : Vec3 → ℚ) : List ℚ :=
  (List.range (PADDED_CHUNK_SIZE * PADDED_CHUNK_SIZE * PADDED_CHUNK_SIZE).toNat).map
    (fun i : ℕ =>
      noise (c.samplePos ((i : ℤ) % PADDED_CHUNK_SIZE)
        ((i : ℤ) / PADDED_CHUNK_SIZE % PADDED_CHUNK_SIZE)
        ((i : ℤ) / PADDED_CHUNK_SIZE / PADDED_CHUNK_SIZE)))

/-- `GeneratePaddedDensityField`'s return value `HasSurface` (part_018
lines 136–177): both a `> 0` sample and a `≤ 0` sample occur. -/
def Chunk.hasSurface (c : Chunk) (noise : Vec3 → ℚ) : Bool :=
  ((c.paddedField noise).any fun d => decide (0 < d)) &&
    ((c.paddedField noise).any fun d => decide (d ≤ 0))

/-- `FPlanetChunk::ClearMesh` (part_018 lines 97–105). -/
def Chunk.ClearMesh (c : Chunk) : Chunk :=
  { c with Vertices := [], Triangles := [], Normals := [], UVs := [],
           bIsGenerated := false, bIsEmpty := false }

/-- `FPlanetChunk::GenerateMesh` (part_018 lines 28–95).  Neither
`FSurfaceNets::HasSurfaceInChunk` nor the bounds-taking
`FSurfaceNets::GenerateMesh` overload has an implementation among the
repository's files, so both enter as parameters (`hasSurfaceInChunk`,
`extract`); the theorems below hold for every instantiation. -/
def Chunk.GenerateMesh (c : Chunk) (noiseOpt : Option (Vec3 → ℚ))
    (hasSurfaceInChunk : List ℚ → Bool)
    (extract : List ℚ → ℤ → ℚ → Vec3 → IVec3 → IVec3 →
      List Vec3 × List ℤ × List Vec3) : Chunk × Bool :=
  if noiseOpt.isNone = true ∨ c.bIsGenerating = true then (c, false)
  else
    match noiseOpt with
    | none => (c, false)
    | some noise =>
      let c1 := ({ c with bIsGenerating := true }).ClearMesh
      if ¬ c1.hasSurface noise = true then
        ({ c1 with bIsGenerating := false, bIsEmpty := true,
                   bIsGenerated := true }, false)
      else if ¬ hasSurfaceInChunk (c1.paddedField noise) = true then
        ({ c1 with bIsGenerating := false, bIsEmpty := true,
                   bIsGenerated := true }, false)
      else
        let mesh := extract (c1.paddedField noise) PADDED_CHUNK_SIZE c1.voxelSize
          c1.paddedOrigin (⟨0, 0, 0⟩ : IVec3)
          (⟨UNPADDED_CHUNK_SIZE + 1, UNPADDED_CHUNK_SIZE + 1,
            UNPADDED_CHUNK_SIZE + 1⟩ : IVec3)
        ({ c1 with
            Vertices := mesh.1, Triangles := mesh.2.1, Normals := mesh.2.2,
            UVs := mesh.1.map (fun v : Vec3 =>
              (⟨((v - c1.Position).x / c1.Size) + 1/2,
                ((v - c1.Position).y / c1.Size) + 1/2⟩ : Vec2)),
            bIsGenerating := false, bIsGenerated := true,
            bIsEmpty := decide (mesh.1.length = 0) },
         !(decide (mesh.1.length = 0)))

end Part018

theorem hasSurface18_eq_false {c : Part018.Chunk} {noise : Vec3 → ℚ}
    (h : (∀ d ∈ c.paddedField noise, 0 < d) ∨ (∀ d ∈ c.paddedField noise, d ≤ 0)) :
    c.hasSurface noise = false := by
  unfold Part018.Chunk.hasSurface
  rcases h with h | h
  · have hz : ((c.paddedField noise).any fun d => decide (d ≤ 0)) = false := by
      rw [List.any_eq_false]
      intro d hd
      simp only [decide_eq_true_eq]
      exact not_le.mpr (h d hd)
    rw [hz, Bool.and_false]
  · have hz : ((c.paddedField noise).any fun d => decide (0 < d)) = false := by
      rw [List.any_eq_false]
      intro d hd
      simp only [decide_eq_true_eq]
      exact not_lt.mpr (h d hd)
    rw [hz, Bool.false_and]

theorem hasSurface16_eq_false {c : Part016.Chunk} {noise : Vec3 → ℚ}
    (h : (∀ d ∈ c.paddedField noise, 0 < d) ∨ (∀ d ∈ c.paddedField noise, d ≤ 0)) :
    c.hasSurface noise = false := by
  unfold Part016.Chunk.hasSurface
  rcases h with h | h
  · have hz : ((c.paddedField noise).any fun d => decide (d ≤ 0)) = false := by
      rw [List.any_eq_false]
      intro d hd
      simp only [decide_eq_true_eq]
      exact not_le.mpr (h d hd)
    rw [hz, Bool.and_false]
  · have hz : ((c.paddedField noise).any fun d => decide (0 < d)) = false := by
      rw [List.any_eq_false]
      intro d hd
      simp only [decide_eq_true_eq]
      exact not_lt.mpr (h d hd)
    rw [hz, Bool.false_and]

theorem generateMesh18_no_surface (c : Part018.Chunk) (noise : Vec3 → ℚ)
    (hasSurfaceInChunk : List ℚ → Bool)
    (extract : List ℚ → ℤ → ℚ → Vec3 → IVec3 → IVec3 →
      List Vec3 × List ℤ × List Vec3)
    (hgen : c.bIsGenerating = false)
    (hsame : (∀ d ∈ c.paddedField noise, 0 < d) ∨ (∀ d ∈ c.paddedField noise, d ≤ 0)) :
    c.GenerateMesh (some noise) hasSurfaceInChunk extract =
      ({ Position := c.Position, LODLevel := c.LODLevel, Size := c.Size,
         Vertices := [], Triangles := [], Normals := [], UVs := [],
         bIsGenerated := true, bIsGenerating := false, bIsEmpty := true,
         DistanceFromCamera := c.DistanceFromCamera }, false) := by
  have hfalse : Part018.Chunk.hasSurface
      (({ c with bIsGenerating := true }).ClearMesh) noise = false :=
    hasSurface18_eq_false hsame
  unfold Part018.Chunk.GenerateMesh
  rw [if_neg (by simp [hgen])]
  dsimp only
  rw [if_pos (by simp [hfalse])]
  rfl

theorem generateMesh16_no_surface (c : Part016.Chunk) (noise : Vec3 → ℚ)
    (extract : List ℚ → ℤ → ℚ → Vec3 → IVec3 → IVec3 →
      List Vec3 × List ℤ × List Vec3)
    (hgen : c.bIsGenerating = false) (hdone : c.bIsGenerated = false)
    (hsame : (∀ d ∈ c.paddedField noise, 0 < d) ∨ (∀ d ∈ c.paddedField noise, d ≤ 0)) :
    c.GenerateMesh (some noise) extract =
      ({ Position := c.Position, LODLevel := c.LODLevel, Size := c.Size,
         VoxelResolution := c.VoxelResolution,
         Vertices := [], Triangles := [], Normals := [], UVs := [],
         bIsGenerated := false, bIsGenerating := false,
         DistanceFromCamera := c.DistanceFromCamera }, false) := by
  have hfalse : Part016.Chunk.hasSurface
      (({ c with bIsGenerating := true }).ClearMesh) noise = false :=
    hasSurface16_eq_false hsame
  unfold Part016.Chunk.GenerateMesh
  rw [if_neg (by simp [hgen, hdone])]
  dsimp only
  rw [if_pos (by simp [hfalse])]
  rfl

/-- **C7.** If every sample of the padded density field has the same sign,
`GenerateMesh` performs no extraction and returns `false` with an empty
mesh in both chunk variants; the part_018 variant marks `bIsGenerated`
(and `bIsEmpty`) `true` as the spec says, while the part_016 variant
leaves `bIsGenerated = false` on this path. -/
theorem C7_no_surface_short_circuit (c18 : Part018.Chunk) (c16 : Part016.Chunk)
    (noise : Vec3 → ℚ) (hasSurfaceInChunk : List ℚ → Bool)
    (extract18 extract16 : List ℚ → ℤ → ℚ → Vec3 → IVec3 → IVec3 →
      List Vec3 × List ℤ × List Vec3)
    (h18 : c18.bIsGenerating = false)
    (h16a : c16.bIsGenerating = false) (h16b : c16.bIsGenerated = false)
    (hsame18 : (∀ d ∈ c18.paddedField noise, 0 < d) ∨
      (∀ d ∈ c18.paddedField noise, d ≤ 0))
    (hsame16 : (∀ d ∈ c16.paddedField noise, 0 < d) ∨
      (∀ d ∈ c16.paddedField noise, d ≤ 0)) :
    ((c18.GenerateMesh (some noise) hasSurfaceInChunk extract18).2 = false ∧
      (c18.GenerateMesh (some noise) hasSurfaceInChunk extract18).1.Vertices = [] ∧
      (c18.GenerateMesh (some noise) hasSurfaceInChunk extract18).1.Triangles = [] ∧
      (c18.GenerateMesh (some noise) hasSurfaceInChunk extract18).1.Normals = [] ∧
      (c18.GenerateMesh (some noise) hasSurfaceInChunk extract18).1.bIsGenerated = true ∧
      (c18.GenerateMesh (some noise) hasSurfaceInChunk extract18).1.bIsEmpty = true ∧
      (c18.GenerateMesh (some noise) hasSurfaceInChunk extract18).1.bIsGenerating = false) ∧
    ((c16.GenerateMesh (some noise) extract16).2 = false ∧
      (c16.GenerateMesh (some noise) extract16).1.Vertices = [] ∧
      (c16.GenerateMesh (some noise) extract16).1.Triangles = [] ∧
      (c16.GenerateMesh (some noise) extract16).1.Normals = [] ∧
      (c16.GenerateMesh (some noise) extract16).1.bIsGenerating = false ∧
      (c16.GenerateMesh (some noise) extract16).1.bIsGenerated = false) := by
  rw [generateMesh18_no_surface c18 noise hasSurfaceInChunk extract18 h18 hsame18,
    generateMesh16_no_surface c16 noise extract16 h16a h16b hsame16]
  refine ⟨⟨rfl, rfl, rfl, rfl, rfl, rfl, rfl⟩, rfl, rfl, rfl, rfl, rfl, rfl⟩

/-- A constant-`1` density sampler (entirely positive field). -/
def onesNoise : Vec3 → ℚ := fun _ => 1

/-- A trivial stand-in for the missing bounds-taking extractor. -/
def exTriv : List ℚ → ℤ → ℚ → Vec3 → IVec3 → IVec3 →
    List Vec3 × List ℤ × List Vec3 := fun _ _ _ _ _ _ => ([], [], [])

/-- A fresh part_016 chunk at the origin. -/
def c16w : Part016.Chunk :=
  { Position := ⟨0, 0, 0⟩, LODLevel := 0, Size := 16, VoxelResolution := 16,
    Vertices := [], Triangles := [], Normals := [], UVs := [],
    bIsGenerated := false, bIsGenerating := false, DistanceFromCamera := 0 }

/-- A fresh part_018 chunk at the origin. -/
def c18w : Part018.Chunk :=
  { Position := ⟨0, 0, 0⟩, LODLevel := 0, Size := 16,
    Vertices := [], Triangles := [], Normals := [], UVs := [],
    bIsGenerated := false, bIsGenerating := false, bIsEmpty := false,
    DistanceFromCamera := 0 }

theorem paddedField16_ones_pos (c : Part016.Chunk) :
    ∀ d ∈ c.paddedField onesNoise, 0 < d := by
  intro d hd
  rw [Part016.Chunk.paddedField, List.mem_map] at hd
  obtain ⟨i, _, rfl⟩ := hd
  norm_num [onesNoise]

theorem paddedField18_ones_pos (c : Part018.Chunk) :
    ∀ d ∈ c.paddedField onesNoise, 0 < d := by
  intro d hd
  rw [Part018.Chunk.paddedField, List.mem_map] at hd
  obtain ⟨i, _, rfl⟩ := hd
  norm_num [onesNoise]

/-- Witness for C7 on concrete chunks and an all-positive sampler. -/
theorem C7_no_surface_short_circuit_witness :
    ((c18w.GenerateMesh (some onesNoise) (fun _ => false) exTriv).2 = false ∧
      (c18w.GenerateMesh (some onesNoise) (fun _ => false) exTriv).1.Vertices = [] ∧
      (c18w.GenerateMesh (some onesNoise) (fun _ => false) exTriv).1.Triangles = [] ∧
      (c18w.GenerateMesh (some onesNoise) (fun _ => false) exTriv).1.Normals = [] ∧
      (c18w.GenerateMesh (some onesNoise) (fun _ => false) exTriv).1.bIsGenerated = true ∧
      (c18w.GenerateMesh (some onesNoise) (fun _ => false) exTriv).1.bIsEmpty = true ∧
      (c18w.GenerateMesh (some onesNoise) (fun _ => false) exTriv).1.bIsGenerating = false) ∧
    ((c16w.GenerateMesh (some onesNoise) exTriv).2 = false ∧
      (c16w.GenerateMesh (some onesNoise) exTriv).1.Vertices = [] ∧
      (c16w.GenerateMesh (some onesNoise) exTriv).1.Triangles = [] ∧
      (c16w.GenerateMesh (some onesNoise) exTriv).1.Normals = [] ∧
      (c16w.GenerateMesh (some onesNoise) exTriv).1.bIsGenerating = false ∧
      (c16w.GenerateMesh (some onesNoise) exTriv).1.bIsGenerated = false) :=
  C7_no_surface_short_circuit c18w c16w onesNoise (fun _ => false) exTriv exTriv
    rfl rfl rfl (Or.inl (paddedField18_ones_pos c18w))
    (Or.inl (paddedField16_ones_pos c16w))

/-- **C7 (counterexample).** On the no-surface path the part_016 variant
returns `false` with an empty mesh but leaves `bIsGenerated = false`,
contradicting the spec's "mark `generated=true`". -/
theorem C7_part016_generated_flag_counterexample :
    (c16w.GenerateMesh (some onesNoise) exTriv).2 = false ∧
      (c16w.GenerateMesh (some onesNoise) exTriv).1.Vertices = [] ∧
      (c16w.GenerateMesh (some onesNoise) exTriv).1.bIsGenerated = false := by
  rw [generateMesh16_no_surface c16w onesNoise exTriv rfl rfl
    (Or.inl (paddedField16_ones_pos c16w))]
  exact ⟨rfl, rfl, rfl⟩

/-- **C8.** Guard behaviour of `GenerateMesh`: the part_016 variant is a pure
no-op returning `false` under any of the three precondition violations
(already generating, already generated, null sampler); the part_018 variant
guards only the null sampler and the generating flag. -/
theorem C8_precondition_guard (c16 : Part016.Chunk) (c18 : Part018.Chunk)
    (noiseOpt : Option (Vec3 → ℚ)) (hasSurfaceInChunk : List ℚ → Bool)
    (ex16 ex18 : List ℚ → ℤ → ℚ → Vec3 → IVec3 → IVec3 →
      List Vec3 × List ℤ × List Vec3)
    (h16 : c16.bIsGenerating = true ∨ c16.bIsGenerated = true ∨ noiseOpt = none)
    (h18 : c18.bIsGenerating = true ∨ noiseOpt = none) :
    c16.GenerateMesh noiseOpt ex16 = (c16, false) ∧
      c18.GenerateMesh noiseOpt hasSurfaceInChunk ex18 = (c18, false) := by
  constructor
  · unfold Part016.Chunk.GenerateMesh
    rw [if_pos]
    rcases h16 with h | h | h
    · exact Or.inl h
    · exact Or.inr (Or.inl h)
    · exact Or.inr (Or.inr (by rw [h]; rfl))
  · unfold Part018.Chunk.GenerateMesh
    rw [if_pos]
    rcases h18 with h | h
    · exact Or.inr h
    · exact Or.inl (by rw [h]; rfl)

/-- Witness for C8: a null sampler is a no-op for both variants. -/
theorem C8_precondition_guard_witness :
    c16w.GenerateMesh none exTriv = (c16w, false) ∧
      c18w.GenerateMesh none (fun _ => false) exTriv = (c18w, false) :=
  C8_precondition_guard c16w c18w none (fun _ => false) exTriv exTriv
    (Or.inr (Or.inr rfl)) (Or.inr rfl)

/-- An already-generated, idle part_018 chunk holding one vertex. -/
def c18gen : Part018.Chunk :=
  { Position := ⟨0, 0, 0⟩, LODLevel := 0, Size := 16,
    Vertices := [⟨0, 0, 0⟩], Triangles := [], Normals := [], UVs := [],
    bIsGenerated := true, bIsGenerating := false, bIsEmpty := false,
    DistanceFromCamera := 0 }

/-- **C8 (counterexample).** The part_018 guard omits the `bIsGenerated`
check: calling `GenerateMesh` on an already-generated idle chunk is NOT a
no-op — it clears the stored mesh and mutates the flags. -/
theorem C8_part018_regenerates_counterexample :
    c18gen.bIsGenerated = true ∧ c18gen.bIsGenerating = false ∧
      c18gen.Vertices ≠ [] ∧
      (c18gen.GenerateMesh (some onesNoise) (fun _ => false) exTriv).1.Vertices = [] ∧
      (c18gen.GenerateMesh (some onesNoise) (fun _ => false) exTriv).1 ≠ c18gen := by
  have hkey := generateMesh18_no_surface c18gen onesNoise (fun _ => false) exTriv
    rfl (Or.inl (paddedField18_ones_pos c18gen))
  refine ⟨rfl, rfl, by simp [c18gen], by rw [hkey], ?_⟩
  rw [hkey]
  intro h
  have hv := congrArg Part018.Chunk.Vertices h
  simp [c18gen] at hv

/-! ### Seam compatibility (claim C1) -/

theorem toNat_lt_toNat_of {a b : ℤ} (h0 : 0 ≤ a) (h : a < b) :
    a.toNat < b.toNat := by omega

theorem int_flat_decode {N x y z : ℤ} (hx0 : 0 ≤ x) (hx : x < N)
    (hy0 : 0 ≤ y) (hy : y < N) (hz0 : 0 ≤ z) (hz : z < N) :
    (x + y * N + z * N * N) % N = x ∧
      (x + y * N + z * N * N) / N % N = y ∧
      (x + y * N + z * N * N) / N / N = z := by
  have hN : N ≠ 0 := by omega
  have e1 : x + y * N + z * N * N = x + (y + z * N) * N := by ring
  have hdiv : (x + y * N + z * N * N) / N = y + z * N := by
    rw [e1, Int.add_mul_ediv_right x (y + z * N) hN,
      Int.ediv_eq_zero_of_lt hx0 hx, zero_add]
  refine ⟨?_, ?_, ?_⟩
  · rw [e1, Int.add_mul_emod_self, Int.emod_eq_of_lt hx0 hx]
  · rw [hdiv, Int.add_mul_emod_self, Int.emod_eq_of_lt hy0 hy]
  · rw [hdiv, Int.add_mul_ediv_right y z hN, Int.ediv_eq_zero_of_lt hy0 hy,
      zero_add]

theorem int_flat_encode_bounds {N x y z : ℤ} (hx0 : 0 ≤ x) (hx : x < N)
    (hy0 : 0 ≤ y) (hy : y < N) (hz0 : 0 ≤ z) (hz : z < N) :
    0 ≤ x + y * N + z * N * N ∧ x + y * N + z * N * N < N * N * N := by
  have hN : 0 < N := by omega
  constructor
  · positivity
  · nlinarith

/-- In-range reads of a part_016 padded density field are exactly the
sampler's value at the corresponding world position. -/
theorem paddedField16_lookup (c : Part016.Chunk) (f : Vec3 → ℚ) {x y z : ℤ}
    (hx0 : 0 ≤ x) (hx : x < c.paddedSize) (hy0 : 0 ≤ y) (hy : y < c.paddedSize)
    (hz0 : 0 ≤ z) (hz : z < c.paddedSize) :
    Part013.GetDensity (c.paddedField f) c.paddedSize x y z =
      f (c.samplePos x y z) := by
  obtain ⟨hm, hdm, hdd⟩ := int_flat_decode hx0 hx hy0 hy hz0 hz
  obtain ⟨he0, helt⟩ := int_flat_encode_bounds hx0 hx hy0 hy hz0 hz
  unfold Part013.GetDensity
  rw [if_neg (by omega)]
  unfold Part016.Chunk.paddedField
  rw [get?_range_map (fun i =>
      f (c.samplePos ((i : ℤ) % c.paddedSize) ((i : ℤ) / c.paddedSize % c.paddedSize)
        ((i : ℤ) / c.paddedSize / c.paddedSize)))
    (toNat_lt_toNat_of he0 helt)]
  simp only [Option.getD_some]
  rw [Int.toNat_of_nonneg he0, hm, hdm, hdd]

theorem voxelSize16_eq (A B : Part016.Chunk) (hsize : B.Size = A.Size)
    (hres : B.VoxelResolution = A.VoxelResolution) :
    B.voxelSize = A.voxelSize := by
  unfold Part016.Chunk.voxelSize
  rw [hsize, hres]

theorem paddedSize16_eq (A B : Part016.Chunk)
    (hres : B.VoxelResolution = A.VoxelResolution) :
    B.paddedSize = A.paddedSize := by
  unfold Part016.Chunk.paddedSize
  rw [hres]

/-- An `+X`-adjacent equal-sized chunk samples the world at positions shifted
by exactly `VoxelResolution` grid steps. -/
theorem samplePos16_shift (A B : Part016.Chunk)
    (hpos : B.Position = A.Position + ⟨A.Size, 0, 0⟩)
    (hsize : B.Size = A.Size) (hres : B.VoxelResolution = A.VoxelResolution)
    (hR : 1 ≤ A.VoxelResolution) (x y z : ℤ) :
    B.samplePos x y z = A.samplePos (x + A.VoxelResolution) y z := by
  have hRQ : (A.VoxelResolution : ℚ) ≠ 0 := by
    exact_mod_cast (show A.VoxelResolution ≠ 0 by omega)
  unfold Part016.Chunk.samplePos Part016.Chunk.paddedOrigin Part016.Chunk.voxelSize
  rw [hpos, hsize, hres]
  simp only [Vec3.add_def, Vec3.sub_def, Vec3.mk.injEq]
  push_cast
  refine ⟨?_, ?_, ?_⟩ <;> field_simp <;> ring

theorem paddedOrigin16_shift (A B : Part016.Chunk)
    (hpos : B.Position = A.Position + ⟨A.Size, 0, 0⟩)
    (hsize : B.Size = A.Size) (hres : B.VoxelResolution = A.VoxelResolution)
    (hR : 1 ≤ A.VoxelResolution) :
    B.paddedOrigin = A.paddedOrigin +
      ⟨(A.VoxelResolution : ℚ) * A.voxelSize, 0, 0⟩ := by
  have hRQ : (A.VoxelResolution : ℚ) ≠ 0 := by
    exact_mod_cast (show A.VoxelResolution ≠ 0 by omega)
  unfold Part016.Chunk.paddedOrigin Part016.Chunk.voxelSize
  rw [hpos, hsize, hres]
  simp only [Vec3.add_def, Vec3.sub_def, Vec3.mk.injEq]
  refine ⟨?_, ?_, ?_⟩ <;> field_simp <;> ring

/-- Both chunks read the same density for overlapping padded-grid columns:
`B`'s column `x ∈ {0, 1}` is `A`'s column `x + VoxelResolution`. -/
theorem getDensity16_shift (A B : Part016.Chunk)
    (hpos : B.Position = A.Position + ⟨A.Size, 0, 0⟩)
    (hsize : B.Size = A.Size) (hres : B.VoxelResolution = A.VoxelResolution)
    (hR : 1 ≤ A.VoxelResolution) (f : Vec3 → ℚ) {x y z : ℤ}
    (hx0 : 0 ≤ x) (hx : x ≤ 1) (hy0 : 0 ≤ y) (hy : y < A.paddedSize)
    (hz0 : 0 ≤ z) (hz : z < A.paddedSize) :
    Part013.GetDensity (B.paddedField f) B.paddedSize x y z =
      Part013.GetDensity (A.paddedField f) A.paddedSize
        (x + A.VoxelResolution) y z := by
  have hps := paddedSize16_eq A B hres
  have hNA : A.paddedSize = A.VoxelResolution + 2 := rfl
  rw [paddedField16_lookup B f hx0 (by omega) hy0 (by omega) hz0 (by omega)]
  rw [paddedField16_lookup A f (by omega) (by omega) hy0 hy hz0 hz]
  rw [samplePos16_shift A B hpos hsize hres hR x y z]

/-- The 8 corner densities of `A`'s shared-face cell `(R, cy, cz)` and `B`'s
mirrored cell `(0, cy, cz)` agree. -/
theorem cornerDists16_shift (A B : Part016.Chunk)
    (hpos : B.Position = A.Position + ⟨A.Size, 0, 0⟩)
    (hsize : B.Size = A.Size) (hres : B.VoxelResolution = A.VoxelResolution)
    (hR : 1 ≤ A.VoxelResolution) (f : Vec3 → ℚ) {cy cz : ℤ}
    (hcy0 : 0 ≤ cy) (hcy : cy ≤ A.paddedSize - 2)
    (hcz0 : 0 ≤ cz) (hcz : cz ≤ A.paddedSize - 2) :
    Part013.cornerDists (A.paddedField f) A.paddedSize
        A.VoxelResolution cy cz =
      Part013.cornerDists (B.paddedField f) B.paddedSize 0 cy cz := by
  have hNA : A.paddedSize = A.VoxelResolution + 2 := rfl
  unfold Part013.cornerDists
  refine List.map_congr_left ?_
  intro k hk
  have hkb : (0 ≤ k.x ∧ k.x ≤ 1) ∧ (0 ≤ k.y ∧ k.y ≤ 1) ∧ (0 ≤ k.z ∧ k.z ≤ 1) := by
    fin_cases hk <;> refine ⟨⟨?_, ?_⟩, ⟨?_, ?_⟩, ⟨?_, ?_⟩⟩ <;> norm_num
  have hshift := getDensity16_shift A B hpos hsize hres hR f
    (show (0 : ℤ) ≤ k.x from hkb.1.1) (show k.x ≤ 1 from hkb.1.2)
    (show (0 : ℤ) ≤ cy + k.y by omega)
    (show cy + k.y < A.paddedSize by omega)
    (show (0 : ℤ) ≤ cz + k.z by omega)
    (show cz + k.z < A.paddedSize by omega)
  rw [zero_add, hshift, add_comm A.VoxelResolution k.x]

theorem containsSurface16_shift (A B : Part016.Chunk)
    (hpos : B.Position = A.Position + ⟨A.Size, 0, 0⟩)
    (hsize : B.Size = A.Size) (hres : B.VoxelResolution = A.VoxelResolution)
    (hR : 1 ≤ A.VoxelResolution) (f : Vec3 → ℚ) {cy cz : ℤ}
    (hcy0 : 0 ≤ cy) (hcy : cy ≤ A.paddedSize - 2)
    (hcz0 : 0 ≤ cz) (hcz : cz ≤ A.paddedSize - 2) :
    Part013.ContainsSurface (A.paddedField f) A.paddedSize
        A.VoxelResolution cy cz =
      Part013.ContainsSurface (B.paddedField f) B.paddedSize 0 cy cz := by
  unfold Part013.ContainsSurface
  rw [cornerDists16_shift A B hpos hsize hres hR f hcy0 hcy hcz0 hcz]

theorem vertexPos16_shift (A B : Part016.Chunk)
    (hpos : B.Position = A.Position + ⟨A.Size, 0, 0⟩)
    (hsize : B.Size = A.Size) (hres : B.VoxelResolution = A.VoxelResolution)
    (hR : 1 ≤ A.VoxelResolution) (f : Vec3 → ℚ) {cy cz : ℤ}
    (hcy0 : 0 ≤ cy) (hcy : cy ≤ A.paddedSize - 2)
    (hcz0 : 0 ≤ cz) (hcz : cz ≤ A.paddedSize - 2) :
    Part013.CalculateVertexPosition (A.paddedField f) A.paddedSize
        A.VoxelResolution cy cz A.voxelSize A.paddedOrigin =
      Part013.CalculateVertexPosition (B.paddedField f) B.paddedSize
        0 cy cz B.voxelSize B.paddedOrigin := by
  have hv := voxelSize16_eq A B hsize hres
  have ho := paddedOrigin16_shift A B hpos hsize hres hR
  have hcd := cornerDists16_shift A B hpos hsize hres hR f hcy0 hcy hcz0 hcz
  unfold Part013.CalculateVertexPosition
  rw [hcd, hv, ho]
  by_cases hnn :
      ((Part013.cornerDists (B.paddedField f) B.paddedSize 0 cy cz).filter
        (fun d => decide (d < 0))).length = 0 ∨
      ((Part013.cornerDists (B.paddedField f) B.paddedSize 0 cy cz).filter
        (fun d => decide (d < 0))).length = 8
  · rw [if_pos hnn, if_pos hnn]
    simp only [Vec3.add_def, Vec3.hmul_def, Vec3.mk.injEq]
    push_cast
    refine ⟨by ring, by ring, by ring⟩
  · rw [if_neg hnn, if_neg hnn]
    unfold IVec3.toVec3
    simp only [Vec3.add_def, Vec3.hmul_def, Vec3.mk.injEq]
    push_cast
    refine ⟨by ring, by ring, by ring⟩

/-- **C1.** Seam compatibility of the part_016 padded density fields: an
`+X`-adjacent chunk of identical size and resolution samples exactly the
same world positions in the overlapping padding columns, reads the same
densities there, and its shared-face cells get the same surface decision
and the same world-space vertex position as the neighbour's mirrored
cells. -/
theorem C1_seam_compatibility (A B : Part016.Chunk) (f : Vec3 → ℚ)
    (hpos : B.Position = A.Position + ⟨A.Size, 0, 0⟩)
    (hsize : B.Size = A.Size) (hres : B.VoxelResolution = A.VoxelResolution)
    (hR : 1 ≤ A.VoxelResolution) :
    (∀ x y z : ℤ, B.samplePos x y z = A.samplePos (x + A.VoxelResolution) y z) ∧
      (∀ x y z : ℤ, 0 ≤ x → x ≤ 1 → 0 ≤ y → y < A.paddedSize → 0 ≤ z →
        z < A.paddedSize →
        Part013.GetDensity (B.paddedField f) B.paddedSize x y z =
          Part013.GetDensity (A.paddedField f) A.paddedSize
            (x + A.VoxelResolution) y z) ∧
      (∀ cy cz : ℤ, 0 ≤ cy → cy ≤ A.paddedSize - 2 → 0 ≤ cz →
        cz ≤ A.paddedSize - 2 →
        Part013.ContainsSurface (A.paddedField f) A.paddedSize
            A.VoxelResolution cy cz =
          Part013.ContainsSurface (B.paddedField f) B.paddedSize 0 cy cz ∧
        Part013.CalculateVertexPosition (A.paddedField f) A.paddedSize
            A.VoxelResolution cy cz A.voxelSize A.paddedOrigin =
          Part013.CalculateVertexPosition (B.paddedField f) B.paddedSize
            0 cy cz B.voxelSize B.paddedOrigin) := by
  refine ⟨samplePos16_shift A B hpos hsize hres hR, ?_, ?_⟩
  · intro x y z hx0 hx hy0 hy hz0 hz
    exact getDensity16_shift A B hpos hsize hres hR f hx0 hx hy0 hy hz0 hz
  · intro cy cz hcy0 hcy hcz0 hcz
    exact ⟨containsSurface16_shift A B hpos hsize hres hR f hcy0 hcy hcz0 hcz,
      vertexPos16_shift A B hpos hsize hres hR f hcy0 hcy hcz0 hcz⟩

/-- The `+X` neighbour of `c16w`. -/
def c16e : Part016.Chunk :=
  { Position := ⟨16, 0, 0⟩, LODLevel := 0, Size := 16, VoxelResolution := 16,
    Vertices := [], Triangles := [], Normals := [], UVs := [],
    bIsGenerated := false, bIsGenerating := false, DistanceFromCamera := 0 }

/-- Witness for C1 on a concrete pair of adjacent chunks. -/
theorem C1_seam_compatibility_witness :
    (∀ x y z : ℤ, c16e.samplePos x y z =
      c16w.samplePos (x + c16w.VoxelResolution) y z) ∧
      (∀ x y z : ℤ, 0 ≤ x → x ≤ 1 → 0 ≤ y → y < c16w.paddedSize → 0 ≤ z →
        z < c16w.paddedSize →
        Part013.GetDensity (c16e.paddedField onesNoise) c16e.paddedSize x y z =
          Part013.GetDensity (c16w.paddedField onesNoise) c16w.paddedSize
            (x + c16w.VoxelResolution) y z) ∧
      (∀ cy cz : ℤ, 0 ≤ cy → cy ≤ c16w.paddedSize - 2 → 0 ≤ cz →
        cz ≤ c16w.paddedSize - 2 →
        Part013.ContainsSurface (c16w.paddedField onesNoise) c16w.paddedSize
            c16w.VoxelResolution cy cz =
          Part013.ContainsSurface (c16e.paddedField onesNoise)
            c16e.paddedSize 0 cy cz ∧
        Part013.CalculateVertexPosition (c16w.paddedField onesNoise)
            c16w.paddedSize c16w.VoxelResolution cy cz c16w.voxelSize
            c16w.paddedOrigin =
          Part013.CalculateVertexPosition (c16e.paddedField onesNoise)
            c16e.paddedSize 0 cy cz c16e.voxelSize c16e.paddedOrigin) :=
  C1_seam_compatibility c16w c16e onesNoise
    (by norm_num [c16w, c16e, Vec3.add_def]) rfl rfl (by norm_num [c16w])

/-! ### The part_011 octree LOD component (third translation unit,
lines 606–986) -/

namespace Part011

/-- The LOD-relevant state of `FOctreeNode` (OctreeComponent.h); the
`TSharedPtr<FPlanetChunk>` is modelled as an optional chunk payload. -/
structure Node where
  Key : FOctreeKey
  Center : Vec3
  Size : ℚ
  bHasChildren : Bool
  bIsActive : Bool
  DistanceFromCamera : ℚ
  Chunk : Option Part016.Chunk

/-- The LOD parameters and node arena of `UOctreeComponent`. -/
structure Octree where
  Nodes : List Node
  RootSize : ℚ
  MaxDepth : ℤ
  SubdivisionDistance : ℚ
  MergeDistanceMultiplier : ℚ

/-- `UOctreeComponent::CalculateRequiredChunkSize` (part_011 lines 920–933);
`pow2` models the host-engine `FMath::Pow(2.0f, ·)`. -/
def CalculateRequiredChunkSize (RootSize : ℚ) (MaxDepth : ℤ)
    (SubdivisionDistance : ℚ) (pow2 : ℚ → ℚ) (Distance : ℚ) : ℚ :=
  let MinChunkSize := RootSize / pow2 (MaxDepth : ℚ)
  let MaxChunkSize := RootSize
  let NormalizedDistance := Distance / SubdivisionDistance
  let ChunkSize := MinChunkSize * pow2 NormalizedDistance
  fclamp ChunkSize MinChunkSize MaxChunkSize

/-- `UOctreeComponent::ShouldSubdivide` (part_011 lines 851–860):
`Level > 0` and `Node.Size > RequiredSize`. -/
def ShouldSubdivide (o : Octree) (pow2 : ℚ → ℚ) (n : Node) : Bool :=
  if n.Key.Level ≤ 0 then false
  else decide (CalculateRequiredChunkSize o.RootSize o.MaxDepth
    o.SubdivisionDistance pow2 n.DistanceFromCamera < n.Size)

/-- `UOctreeComponent::ShouldMerge` (part_011 lines 862–872): has children
and `Node.Size < RequiredSize * MergeDistanceMultiplier`. -/
def ShouldMerge (o : Octree) (pow2 : ℚ → ℚ) (n : Node) : Bool :=
  if n.bHasChildren = false then false
  else decide (n.Size < CalculateRequiredChunkSize o.RootSize o.MaxDepth
    o.SubdivisionDistance pow2 n.DistanceFromCamera * o.MergeDistanceMultiplier)

/-- `UOctreeComponent::UpdateNodeActivity` (part_011 lines 874–898):
a node is active iff it is a leaf; active nodes get a chunk
(`GetOrCreateChunk`, modelled by the allocator parameter `mkChunk`),
inactive nodes drop theirs. -/
def updateNodeActivity (mkChunk : Node → Part016.Chunk) (n : Node) : Node :=
  let n1 := { n with bIsActive := !n.bHasChildren }
  if n1.bIsActive = true then
    match n1.Chunk with
    | some _ => n1
    | none => { n1 with Chunk := some (mkChunk n1) }
  else { n1 with Chunk := none }

/-- One `UpdateLOD` pass as it acts on a single node of the arena
(part_011 lines 654–758): the distance refresh (line 685), the first-pass
decision (lines 691–698) with the structural effect `SubdivideNode` /
`MergeNode` has on the node's own fields (lines 802–808 / 845–848), then
the third-pass activity update.  `d` is the node's distance from the
(unchanged) viewer. -/
def updateLODNodeStep (o : Octree) (pow2 : ℚ → ℚ)
    (mkChunk : Node → Part016.Chunk) (d : ℚ) (n : Node) : Node :=
  let n1 := { n with DistanceFromCamera := d }
  let n2 :=
    if ShouldSubdivide o pow2 n1 = true ∧ n1.bHasChildren = false ∧
        0 < n1.Key.Level then
      { n1 with bHasChildren := true, bIsActive := false }
    else if ShouldMerge o pow2 n1 = true ∧ n1.bHasChildren = true then
      { n1 with bHasChildren := false, bIsActive := true }
    else n1
  updateNodeActivity mkChunk n2

/-- `UOctreeComponent::GetActiveChunks` (part_011 lines 944–957, and the
earlier unit's lines 292–305): every node with `bIsActive` and a valid
chunk pointer contributes its chunk, in arena order. -/
def GetActiveChunks (o : Octree) : List Part016.Chunk :=
  o.Nodes.filterMap (fun n => if n.bIsActive = true then n.Chunk else none)

end Part011

/-- The spec's description of `GetActiveChunks` (claim C6): chunks of
currently-active LEAF nodes whose GENERATION HAS COMPLETED. -/
def specActiveGeneratedChunks (o : Part011.Octree) : List Part016.Chunk :=
  o.Nodes.filterMap (fun n =>
    if n.bIsActive = true ∧ n.bHasChildren = false then
      match n.Chunk with
      | some ch => if ch.bIsGenerated = true then some ch else none
      | none => none
    else none)

theorem shouldSubdivide_at_boundary (o : Part011.Octree) (pow2 : ℚ → ℚ)
    (d : ℚ) (n : Part011.Node)
    (hreq : Part011.CalculateRequiredChunkSize o.RootSize o.MaxDepth
      o.SubdivisionDistance pow2 d = n.Size) :
    Part011.ShouldSubdivide o pow2 ({ n with DistanceFromCamera := d }) = false := by
  unfold Part011.ShouldSubdivide
  split_ifs with h
  · rfl
  · dsimp only
    rw [hreq]
    exact decide_eq_false (lt_irrefl _)

theorem shouldMerge_at_boundary (o : Part011.Octree) (pow2 : ℚ → ℚ)
    (d : ℚ) (n : Part011.Node)
    (hreq : Part011.CalculateRequiredChunkSize o.RootSize o.MaxDepth
      o.SubdivisionDistance pow2 d = n.Size)
    (hmult : 1 < o.MergeDistanceMultiplier) (hpos : 0 < n.Size)
    (hc : n.bHasChildren = true) :
    Part011.ShouldMerge o pow2 ({ n with DistanceFromCamera := d }) = true := by
  unfold Part011.ShouldMerge
  rw [if_neg (by dsimp only; simp [hc])]
  dsimp only
  rw [hreq]
  exact decide_eq_true (by nlinarith)

theorem updateLODNodeStep_spec (o : Part011.Octree) (pow2 : ℚ → ℚ)
    (mkChunk : Part011.Node → Part016.Chunk) (d : ℚ) (n : Part011.Node)
    (hreq : Part011.CalculateRequiredChunkSize o.RootSize o.MaxDepth
      o.SubdivisionDistance pow2 d = n.Size)
    (hmult : 1 < o.MergeDistanceMultiplier) (hpos : 0 < n.Size) :
    (Part011.updateLODNodeStep o pow2 mkChunk d n).bHasChildren = false ∧
      (Part011.updateLODNodeStep o pow2 mkChunk d n).DistanceFromCamera = d ∧
      (Part011.updateLODNodeStep o pow2 mkChunk d n).bIsActive = true ∧
      (Part011.updateLODNodeStep o pow2 mkChunk d n).Chunk.isSome = true ∧
      (Part011.updateLODNodeStep o pow2 mkChunk d n).Size = n.Size := by
  have hsub := shouldSubdivide_at_boundary o pow2 d n hreq
  unfold Part011.updateLODNodeStep Part011.updateNodeActivity
  by_cases hc : n.bHasChildren = true
  · have hmerge := shouldMerge_at_boundary o pow2 d n hreq hmult hpos hc
    cases hch : n.Chunk with
    | some ch =>
      rw [hc, hch] at hsub hmerge
      simp [hsub, hmerge, hc, hch]
    | none =>
      rw [hc, hch] at hsub hmerge
      simp [hsub, hmerge, hc, hch]
  · have hc' : n.bHasChildren = false := by
      cases hb : n.bHasChildren
      · rfl
      · exact absurd hb hc
    cases hch : n.Chunk with
    | some ch =>
      rw [hc', hch] at hsub
      simp [hsub, hch, hc']
    | none =>
      rw [hc', hch] at hsub
      simp [hsub, hch, hc']

theorem updateLODNodeStep_fixed (o : Part011.Octree) (pow2 : ℚ → ℚ)
    (mkChunk : Part011.Node → Part016.Chunk) (d : ℚ) (m : Part011.Node)
    (h1 : m.bHasChildren = false) (h2 : m.DistanceFromCamera = d)
    (h3 : m.bIsActive = true) (h4 : m.Chunk.isSome = true)
    (hreq : Part011.CalculateRequiredChunkSize o.RootSize o.MaxDepth
      o.SubdivisionDistance pow2 d = m.Size) :
    Part011.updateLODNodeStep o pow2 mkChunk d m = m := by
  obtain ⟨ch, hch⟩ := Option.isSome_iff_exists.mp h4
  have hsub := shouldSubdivide_at_boundary o pow2 d m hreq
  rcases m with ⟨key, center, size, bhc, bact, dist, chk⟩
  dsimp only at h1 h2 h3 hch
  subst h1 h2 h3 hch
  unfold Part011.updateLODNodeStep Part011.updateNodeActivity
  simp [hsub]

/-- **C5 (amended).** For a node whose computed `requiredSize` equals its
size, the per-node `UpdateLOD` transition never subdivides, leaves a leaf
structurally unchanged, and is idempotent: one call reaches a fixpoint, so
there is no subdivide/merge oscillation.  (An internal node at the boundary
DOES merge on the first call — the counterexample — so "no structural
change on repeated calls" holds only from the second call on.) -/
theorem C5_lod_hysteresis_stability (o : Part011.Octree) (pow2 : ℚ → ℚ)
    (mkChunk : Part011.Node → Part016.Chunk) (d : ℚ) (n : Part011.Node)
    (hreq : Part011.CalculateRequiredChunkSize o.RootSize o.MaxDepth
      o.SubdivisionDistance pow2 d = n.Size)
    (hmult : 1 < o.MergeDistanceMultiplier) (hpos : 0 < n.Size) :
    ((Part011.updateLODNodeStep o pow2 mkChunk d n).bHasChildren = false) ∧
      (n.bHasChildren = false →
        (Part011.updateLODNodeStep o pow2 mkChunk d n).bHasChildren =
          n.bHasChildren) ∧
      (Part011.updateLODNodeStep o pow2 mkChunk d
          (Part011.updateLODNodeStep o pow2 mkChunk d n) =
        Part011.updateLODNodeStep o pow2 mkChunk d n) := by
  obtain ⟨s1, s2, s3, s4, s5⟩ :=
    updateLODNodeStep_spec o pow2 mkChunk d n hreq hmult hpos
  refine ⟨s1, fun h => by rw [s1, h], ?_⟩
  exact updateLODNodeStep_fixed o pow2 mkChunk d _ s1 s2 s3 s4
    (by rw [s5]; exact hreq)

/-- A concrete stand-in for `FMath::Pow(2.0f, ·)` at the two exponents the
counterexample exercises. -/
def c5pow2 : ℚ → ℚ := fun q => if q = 2 then 4 else 2

/-- A concrete octree configuration: root size 4, depth 2, subdivision
distance 100, the header's default merge multiplier 3. -/
def c5octree : Part011.Octree :=
  { Nodes := [], RootSize := 4, MaxDepth := 2, SubdivisionDistance := 100,
    MergeDistanceMultiplier := 3 }

theorem c5required_eq :
    Part011.CalculateRequiredChunkSize c5octree.RootSize c5octree.MaxDepth
      c5octree.SubdivisionDistance c5pow2 100 = 2 := by
  unfold Part011.CalculateRequiredChunkSize c5octree c5pow2 fclamp
  norm_num

/-- An internal node exactly at the boundary: size 2 equals the required
size at distance 100. -/
def c5node : Part011.Node :=
  { Key := ⟨1, ⟨0, 0, 0⟩⟩, Center := ⟨0, 0, 0⟩, Size := 2,
    bHasChildren := true, bIsActive := false, DistanceFromCamera := 100,
    Chunk := none }

/-- A leaf node exactly at the boundary. -/
def c5leaf : Part011.Node :=
  { Key := ⟨1, ⟨0, 0, 0⟩⟩, Center := ⟨0, 0, 0⟩, Size := 2,
    bHasChildren := false, bIsActive := true, DistanceFromCamera := 100,
    Chunk := some c16w }

/-- **C5 (counterexample).** An internal node with `requiredSize == size`
merges on the FIRST `UpdateLOD` call (`size < size * 3` passes the merge
threshold), so that call does produce a structural change. -/
theorem C5_boundary_merge_counterexample :
    Part011.CalculateRequiredChunkSize c5octree.RootSize c5octree.MaxDepth
        c5octree.SubdivisionDistance c5pow2 100 = c5node.Size ∧
      c5node.bHasChildren = true ∧
      (Part011.updateLODNodeStep c5octree c5pow2 (fun _ => c16w) 100
        c5node).bHasChildren = false := by
  refine ⟨c5required_eq, rfl, ?_⟩
  exact (updateLODNodeStep_spec c5octree c5pow2 (fun _ => c16w) 100 c5node
    c5required_eq (by norm_num [c5octree]) (by norm_num [c5node])).1

/-- Witness for C5 on the concrete boundary leaf. -/
theorem C5_lod_hysteresis_stability_witness :
    ((Part011.updateLODNodeStep c5octree c5pow2 (fun _ => c16w) 100
        c5leaf).bHasChildren = false) ∧
      (c5leaf.bHasChildren = false →
        (Part011.updateLODNodeStep c5octree c5pow2 (fun _ => c16w) 100
            c5leaf).bHasChildren = c5leaf.bHasChildren) ∧
      (Part011.updateLODNodeStep c5octree c5pow2 (fun _ => c16w) 100
          (Part011.updateLODNodeStep c5octree c5pow2 (fun _ => c16w) 100
            c5leaf) =
        Part011.updateLODNodeStep c5octree c5pow2 (fun _ => c16w) 100
          c5leaf) :=
  C5_lod_hysteresis_stability c5octree c5pow2 (fun _ => c16w) 100 c5leaf
    c5required_eq (by norm_num [c5octree]) (by norm_num [c5leaf])

/-- **C6 (amended).** `GetActiveChunks` returns exactly the chunks of nodes
with `bIsActive` set and a valid chunk pointer — over ALL arena nodes: it
checks neither leaf-ness nor generation completion. -/
theorem C6_get_active_chunks (o : Part011.Octree) (ch : Part016.Chunk) :
    ch ∈ Part011.GetActiveChunks o ↔
      ∃ n ∈ o.Nodes, n.bIsActive = true ∧ n.Chunk = some ch := by
  unfold Part011.GetActiveChunks
  rw [List.mem_filterMap]
  constructor
  · rintro ⟨n, hn, hf⟩
    by_cases ha : n.bIsActive = true
    · rw [if_pos ha] at hf
      exact ⟨n, hn, ha, hf⟩
    · rw [if_neg ha] at hf
      cases hf
  · rintro ⟨n, hn, ha, hch⟩
    exact ⟨n, hn, by rw [if_pos ha, hch]⟩

/-- An arena with a single ACTIVE INTERNAL node holding an UNGENERATED
chunk. -/
def c6octree : Part011.Octree :=
  { Nodes := [
      { Key := ⟨0, ⟨0, 0, 0⟩⟩, Center := ⟨0, 0, 0⟩, Size := 2,
        bHasChildren := true, bIsActive := true, DistanceFromCamera := 0,
        Chunk := some c16w }],
    RootSize := 4, MaxDepth := 2, SubdivisionDistance := 100,
    MergeDistanceMultiplier := 3 }

/-- **C6 (counterexample).** `GetActiveChunks` returns the chunk of an
active node that is internal (`bHasChildren = true`) and whose chunk has
NOT completed generation, while the spec's description admits neither. -/
theorem C6_ungenerated_chunk_counterexample :
    Part011.GetActiveChunks c6octree = [c16w] ∧
      c16w.bIsGenerated = false ∧
      c6octree.Nodes.map Part011.Node.bHasChildren = [true] ∧
      specActiveGeneratedChunks c6octree = [] := by
  refine ⟨rfl, rfl, rfl, rfl⟩
